import Mathlib

/-! Space-Tourism: the page renderer of `script.js`.

A shallow embedding of the rendering core of `src/script.js`: the image
resolver (`getOptimizedImagePath`, `getBackgroundImagePath`,
`getTechnologyImagePath`), the four page-content functions, `renderPage`, the
event handlers that call it, the fetch continuations and the debounced resize
timer.

Conventions of the embedding

* A JavaScript property that may be missing is an `Option`; a string used as a
  condition is truthy when it is present and non-empty (`truthy`).
* `window.innerWidth` and the cached `webpSupported` flag are explicit inputs.
* An index is a JavaScript number that is an integer or `NaN` (`JsIndex`): the
  default 0, a remembered index, or a result of `parseInt`.
* An array read `xs[index]` is `arrayGet`: `none` (JavaScript `undefined`)
  for `NaN` and outside `0 ≤ index < xs.length`.
* A function that can raise a `TypeError` returns `Except String _`.
* The fragments are mounted with `innerHTML` and the content strings are
  interpolated unescaped. The controls of a fragment are those the templates
  write when no content string contains a markup character (`plainData`);
  otherwise a click may also reach a listener from an element that a content
  string put into the fragment, with any `parseInt` result.
* `document.querySelector` raises a `SyntaxError` on a selector that is not
  valid CSS. The selector that `renderPage` builds from a page name is valid
  when the name has no double quote, backslash or line break (`cleanName`);
  for other names the verdict of the browser is an input (`Browser`).
* The class toggling of the persistent navigation links in `renderPage`
  touches none of the modelled fields and is left out; console logging is
  left out as well.
-/

namespace SpaceTourism

/-! ## Data model (the records of `data.json`) -/

/-- An image object of a record: the `webp`, `png` and `jpg` paths, each of
which may be missing. -/
structure ImageVariantSet where
  webp : Option String
  png : Option String
  jpg : Option String
  deriving DecidableEq, Repr

/-- One entry of `data.destinations`. -/
structure Destination where
  name : String
  description : String
  distance : String
  travel : String
  images : Option ImageVariantSet
  deriving DecidableEq, Repr

/-- One entry of `data.crew`. -/
structure CrewMember where
  name : String
  role : String
  bio : String
  images : Option ImageVariantSet
  deriving DecidableEq, Repr

/-- The `images` object of a technology item: one image object per
orientation. -/
structure TechImages where
  portrait : Option ImageVariantSet
  landscape : Option ImageVariantSet
  deriving DecidableEq, Repr

/-- One entry of `data.technology`. -/
structure TechnologyItem where
  name : String
  description : String
  images : TechImages
  deriving DecidableEq, Repr

/-- The variable `data`: `{}` until the fetch succeeds, so each of the three
sequences may be missing. -/
structure Data where
  destinations : Option (List Destination)
  crew : Option (List CrewMember)
  technology : Option (List TechnologyItem)
  deriving DecidableEq, Repr

/-- The initial value `let data = {}`. -/
def emptyData : Data := ⟨none, none, none⟩

/-! ## JavaScript helpers -/

/-- Truthiness of a string-valued property: present and not the empty
string. -/
def truthy (p : Option String) : Bool :=
  match p with
  | some s => s != ""
  | none => false

/-- An index value: an integer, or `NaN` as `parseInt` returns it for a
missing or non-numeric attribute. -/
inductive JsIndex where
  | int (i : Int)
  | nan
  deriving DecidableEq, Repr

/-- The array read `xs[index]`: `undefined` for `NaN`, for a negative index
and beyond the end. -/
def arrayGet {α : Type} (xs : List α) (index : JsIndex) : Option α :=
  match index with
  | .int i => if i < 0 then none else xs.get? i.toNat
  | .nan => none

/-! ## Image resolver -/

/-- Translation of `getOptimizedImagePath` (script.js 57-76). -/
def getOptimizedImagePath (webpSupported : Bool) (imageObject : Option ImageVariantSet) :
    String :=
  match imageObject with
  | none => ""
  | some o =>
    if truthy o.webp && webpSupported then o.webp.getD ""
    else if truthy o.png then o.png.getD ""
    else if truthy o.jpg then o.jpg.getD ""
    else ""

/-- The local variable `breakpoint` of `getBackgroundImagePath`
(script.js 81-88). -/
def breakpoint (innerWidth : Int) : String :=
  if innerWidth ≥ 1024 then "desktop"
  else if innerWidth ≥ 768 then "tablet"
  else "mobile"

/-- Translation of `getBackgroundImagePath` (script.js 80-91). -/
def getBackgroundImagePath (innerWidth : Int) (pageName : String) : String :=
  "./assets/" ++ pageName ++ "/background-" ++ pageName ++ "-" ++ breakpoint innerWidth ++ ".jpg"

/-- Translation of `getTechnologyImagePath` (script.js 94-102). -/
def getTechnologyImagePath (webpSupported : Bool) (innerWidth : Int) (techItem : TechnologyItem) :
    String :=
  if innerWidth ≥ 1024 then getOptimizedImagePath webpSupported techItem.images.portrait
  else getOptimizedImagePath webpSupported techItem.images.landscape

/-! ## Page content (the HTML template literals of script.js 105-221) -/

/-- Translation of `getHomePageContent` (script.js 105-118). -/
def getHomePageContent : String :=
  "\n        <section class=\"home-page main-content-section flow\" style=\"--flow-space: 1.5rem;\">\n            <div class=\"text-content\">\n                <p class=\"subtitle text-accent letter-spacing-1\">So, you want to travel to</p>\n                <h1 class=\"title text-white ff-bellefair fs-800\">Space</h1>\n                <p class=\"description text-accent ff-barlow\">\n                    Let’s face it; if you want to go to space, you might as well genuinely go to\n                    outer space and not hover kind of on the edge of it. Well sit back, and relax\n                    because we’ll give you a truly out of this world experience!\n                </p>\n            </div>\n            <button class=\"explore-button ff-bellefair text-dark fs-700\" data-page=\"destination\">Explore</button>\n        </section>\n    "

/-- The fragment returned when `data.destinations[index]` is falsy
(script.js 122). -/
def destinationNotFound : String :=
  "<section class=\"destination-page main-content-section\"><p>Destination not found.</p></section>"

/-- The fragment returned when `data.crew[index]` is falsy (script.js 165). -/
def crewNotFound : String :=
  "<section class=\"crew-page main-content-section\"><p>Crew member not found.</p></section>"

/-- The fragment returned when `data.technology[index]` is falsy
(script.js 195). -/
def technologyNotFound : String :=
  "<section class=\"technology-page main-content-section\"><p>Technology not found.</p></section>"

/-- The value of `idx === index ? 'active' : ''` given the outcome of the
comparison. -/
def activeClass (active : Bool) : String :=
  if active then "active" else ""

/-- A tab button of the destination page: whether it carries the class
`active`, its `data-destination-index`, and its label. -/
structure TabButton where
  active : Bool
  index : Nat
  label : String
  deriving DecidableEq, Repr

/-- The callback of `data.destinations.map` (script.js 125-131), before it is
turned into markup: one tab per destination, `active` when `idx === index`. -/
def destinationTabs (destinations : List Destination) (index : JsIndex) : List TabButton :=
  destinations.mapIdx fun idx dest => ⟨decide (JsIndex.int idx = index), idx, dest.name⟩

/-- The template literal of one tab button (script.js 125-131). -/
def tabButtonHtml (b : TabButton) : String :=
  "\n            <li>\n                <button class=\"tab-button ff-barlow-condensed fs-400 uppercase letter-spacing-2 "
    ++ activeClass b.active ++ "\" data-destination-index=\"" ++ toString b.index
    ++ "\">\n                    " ++ b.label ++ "\n                </button>\n            </li>\n        "

/-- The markup of the destination page for a found record (script.js 136-160). -/
def destinationPageHtml (imageUrl : String) (destination : Destination) (tabButtonsHtml : String) :
    String :=
  "\n            <section class=\"destination-page main-content-section flow\" style=\"--flow-space: 1rem;\">\n                <h2 class=\"page-title uppercase letter-spacing-2\"><span>01</span> Pick your destination</h2>\n                <div class=\"destination-image-container\">\n                    <img src=\""
    ++ imageUrl ++ "\" alt=\"" ++ destination.name
    ++ "\" class=\"destination-image\" onerror=\"this.onerror=null; this.src='https://placehold.co/600x400/FF0000/FFFFFF?text=Image+Load+Error'; console.error('Failed to load image: "
    ++ imageUrl
    ++ "');\">\n                </div>\n                <div class=\"content-wrapper\">\n                    <ul class=\"tab-list\">\n                        "
    ++ tabButtonsHtml
    ++ "\n                    </ul>\n                    <h3 class=\"destination-name ff-bellefair uppercase fs-800\">"
    ++ destination.name
    ++ "</h3>\n                    <p class=\"destination-description ff-barlow\">"
    ++ destination.description
    ++ "</p>\n                    <div class=\"destination-meta flex\">\n                        <div class=\"meta-item\">\n                            <h3 class=\"ff-barlow-condensed uppercase letter-spacing-3\">Avg. distance</h3>\n                            <p class=\"ff-bellefair uppercase fs-600\">"
    ++ destination.distance
    ++ "</p>\n                        </div>\n                        <div class=\"meta-item\">\n                            <h3 class=\"ff-barlow-condensed uppercase letter-spacing-3\">Est. travel time</h3>\n                            <p class=\"ff-bellefair uppercase fs-600\">"
    ++ destination.travel
    ++ "</p>\n                        </div>\n                    </div>\n                </div>\n            </section>\n        "

/-- Translation of `getDestinationPageContent` (script.js 120-161). Reading
`data.destinations[index]` while `data.destinations` is missing raises a
`TypeError`. -/
def getDestinationPageContent (webpSupported : Bool) (data : Data) (index : JsIndex) :
    Except String String :=
  match data.destinations with
  | none => .error "TypeError: data.destinations is undefined"
  | some destinations =>
    match arrayGet destinations index with
    | none => .ok destinationNotFound
    | some destination =>
      let tabButtonsHtml := String.join ((destinationTabs destinations index).map tabButtonHtml)
      let imageUrl := getOptimizedImagePath webpSupported destination.images
      .ok (destinationPageHtml imageUrl destination tabButtonsHtml)

/-- The template literal of one crew dot (script.js 168-170). -/
def crewDotHtml (active : Bool) (idx : Nat) : String :=
  "\n            <button class=\"dot " ++ activeClass active ++ "\" data-crew-index=\""
    ++ toString idx ++ "\"></button>\n        "

/-- The markup of the crew page for a found record (script.js 175-190). -/
def crewPageHtml (imageUrl : String) (crewMember : CrewMember) (dotIndicatorsHtml : String) :
    String :=
  "\n            <section class=\"crew-page main-content-section flow\" style=\"--flow-space: 1rem;\">\n                <h2 class=\"page-title uppercase letter-spacing-2\"><span>02</span> Meet your crew</h2>\n                <div class=\"crew-image-container\">\n                    <img src=\""
    ++ imageUrl ++ "\" alt=\"" ++ crewMember.name
    ++ "\" class=\"crew-image\" onerror=\"this.onerror=null; this.src='https://placehold.co/600x400/FF0000/FFFFFF?text=Image+Load+Error'; console.error('Failed to load image: "
    ++ imageUrl
    ++ "');\">\n                </div>\n                <div class=\"crew-content\">\n                    <h3 class=\"crew-role ff-bellefair uppercase fs-500\">"
    ++ crewMember.role
    ++ "</h3>\n                    <h4 class=\"crew-name ff-bellefair uppercase fs-700\">"
    ++ crewMember.name
    ++ "</h4>\n                    <p class=\"crew-bio ff-barlow\">"
    ++ crewMember.bio
    ++ "</p>\n                </div>\n                <div class=\"dot-indicators\">\n                    "
    ++ dotIndicatorsHtml
    ++ "\n                </div>\n            </section>\n        "

/-- Translation of `getCrewPageContent` (script.js 163-191). -/
def getCrewPageContent (webpSupported : Bool) (data : Data) (index : JsIndex) :
    Except String String :=
  match data.crew with
  | none => .error "TypeError: data.crew is undefined"
  | some crew =>
    match arrayGet crew index with
    | none => .ok crewNotFound
    | some crewMember =>
      let dotIndicatorsHtml :=
        String.join (crew.mapIdx fun idx _ => crewDotHtml (decide (JsIndex.int idx = index)) idx)
      let imageUrl := getOptimizedImagePath webpSupported crewMember.images
      .ok (crewPageHtml imageUrl crewMember dotIndicatorsHtml)

/-- The template literal of one numbered technology dot (script.js 198-200). -/
def techDotHtml (active : Bool) (idx : Nat) : String :=
  "\n            <button class=\"dot ff-bellefair fs-500 " ++ activeClass active
    ++ "\" data-tech-index=\"" ++ toString idx ++ "\">" ++ toString (idx + 1)
    ++ "</button>\n        "

/-- The markup of the technology page for a found record (script.js 205-220). -/
def technologyPageHtml (imageUrl : String) (technology : TechnologyItem)
    (dotIndicatorsHtml : String) : String :=
  "\n            <section class=\"technology-page main-content-section flow\" style=\"--flow-space: 1rem;\">\n                <h2 class=\"page-title uppercase letter-spacing-2\"><span>03</span> Space launch 101</h2>\n                <div class=\"tech-image-container\">\n                    <img src=\""
    ++ imageUrl ++ "\" alt=\"" ++ technology.name
    ++ "\" class=\"tech-image\" onerror=\"this.onerror=null; this.src='https://placehold.co/600x400/FF0000/FFFFFF?text=Image+Load+Error'; console.error('Failed to load image: "
    ++ imageUrl
    ++ "');\">\n                </div>\n                <div class=\"dot-indicators\">\n                    "
    ++ dotIndicatorsHtml
    ++ "\n                </div>\n                <div class=\"tech-text-content\">\n                    <p class=\"tech-subtitle ff-barlow-condensed uppercase letter-spacing-3\">The terminology...</p>\n                    <h3 class=\"tech-name ff-bellefair uppercase fs-700\">"
    ++ technology.name
    ++ "</h3>\n                    <p class=\"tech-description ff-barlow\">"
    ++ technology.description
    ++ "</p>\n                </div>\n            </section>\n        "

/-- Translation of `getTechnologyPageContent` (script.js 193-221). -/
def getTechnologyPageContent (webpSupported : Bool) (innerWidth : Int) (data : Data)
    (index : JsIndex) : Except String String :=
  match data.technology with
  | none => .error "TypeError: data.technology is undefined"
  | some technologies =>
    match arrayGet technologies index with
    | none => .ok technologyNotFound
    | some technology =>
      let dotIndicatorsHtml :=
        String.join
          (technologies.mapIdx fun idx _ => techDotHtml (decide (JsIndex.int idx = index)) idx)
      let imageUrl := getTechnologyImagePath webpSupported innerWidth technology
      .ok (technologyPageHtml imageUrl technology dotIndicatorsHtml)

/-! ## Page controller (script.js 38-43, 225-341) -/

/-- The click listeners that the last `renderPage` attached to the controls of
the mounted fragment (script.js 279-307). They disappear with the fragment
when the content region is overwritten. `tabs n`, `crewDots n` and
`techDots n` stand for listeners on the controls with data index `0 .. n-1`. -/
inductive Listeners where
  | none
  | explore
  | tabs (n : Nat)
  | crewDots (n : Nat)
  | techDots (n : Nat)
  deriving DecidableEq, Repr

/-- The mutable variables of the script together with the parts of the
document and window it reads and writes. `mainContentArea` is `none` when the
element `#main-content-area` is missing, otherwise its `innerHTML`;
`mobileMenuOverlay` is `none` when the overlay is missing, otherwise whether
it carries the class `active`. -/
structure State where
  data : Data
  currentPage : String
  currentDestinationIndex : JsIndex
  currentCrewIndex : JsIndex
  currentTechnologyIndex : JsIndex
  innerWidth : Int
  mainContentArea : Option String
  listeners : Listeners
  backgroundImage : String
  mobileMenuOverlay : Option Bool
  noScroll : Bool
  deriving DecidableEq, Repr

/-- The state when the `DOMContentLoaded` handler has run and the fetch is
still pending (script.js 38-43): `content` is the static markup of the content
region, if the element exists. -/
def initialState (innerWidth : Int) (content : Option String) (overlay : Option Bool) : State :=
  { data := emptyData, currentPage := "home", currentDestinationIndex := .int 0,
    currentCrewIndex := .int 0, currentTechnologyIndex := .int 0, innerWidth := innerWidth,
    mainContentArea := content, listeners := .none, backgroundImage := "",
    mobileMenuOverlay := overlay, noScroll := false }

/-- The result of running a handler: the state it leaves behind and whether it
ended with an uncaught exception. -/
structure Outcome where
  state : State
  threw : Bool
  deriving DecidableEq, Repr

/-- The browser as far as the script depends on it: the result of the WebP
probe (script.js 46-53), and whether `document.querySelector` raises a
`SyntaxError` on the selector built from a page name that is not clean. -/
structure Browser where
  webpSupported : Bool
  rejectsSelector : String → Bool

/-- A page name without double quote (34), backslash (92), line feed (10),
form feed (12) or carriage return (13): inside the double-quoted attribute
value of the selector of script.js 241 it cannot end the CSS string. -/
def cleanName (pageName : String) : Bool :=
  pageName.data.all fun c =>
    c != Char.ofNat 34 && c != Char.ofNat 92 && c != Char.ofNat 10 && c != Char.ofNat 12
      && c != Char.ofNat 13

/-- Whether the `document.querySelector` call of `renderPage` (script.js 241)
raises: never for a clean page name, otherwise as the browser decides. -/
def selectorRaises (browser : Browser) (pageName : String) : Bool :=
  !cleanName pageName && browser.rejectsSelector pageName

/-- Translation of `toggleMobileMenu` (script.js 10-13) for an existing
overlay. -/
def toggleMobileMenu (s : State) : State :=
  { s with mobileMenuOverlay := s.mobileMenuOverlay.map (fun b => !b), noScroll := !s.noScroll }

/-- The `switch (pageName)` of `renderPage` (script.js 254-274): the index
assignment of the selected case and the value computed for `contentHtml`. -/
def renderSwitch (webpSupported : Bool) (s : State) (pageName : String) (index : JsIndex) :
    State × Except String String :=
  if pageName = "home" then (s, .ok getHomePageContent)
  else if pageName = "destination" then
    let s1 := { s with currentDestinationIndex := index }
    (s1, getDestinationPageContent webpSupported s1.data s1.currentDestinationIndex)
  else if pageName = "crew" then
    let s1 := { s with currentCrewIndex := index }
    (s1, getCrewPageContent webpSupported s1.data s1.currentCrewIndex)
  else if pageName = "technology" then
    let s1 := { s with currentTechnologyIndex := index }
    (s1, getTechnologyPageContent webpSupported s1.innerWidth s1.data s1.currentTechnologyIndex)
  else (s, .ok getHomePageContent)

/-- The number of controls that `querySelectorAll` finds in a page fragment:
one per record when the record at `index` was found, none in the not-found
fragment. -/
def controlCount {α : Type} (records : Option (List α)) (index : JsIndex) : Nat :=
  match records with
  | none => 0
  | some xs => if (arrayGet xs index).isSome then xs.length else 0

/-- The listener block of `renderPage` (script.js 279-307), run after the
fragment for `pageName` at `index` has been mounted. -/
def attachListeners (data : Data) (pageName : String) (index : JsIndex) : Listeners :=
  if pageName = "home" then .explore
  else if pageName = "destination" then .tabs (controlCount data.destinations index)
  else if pageName = "crew" then .crewDots (controlCount data.crew index)
  else if pageName = "technology" then .techDots (controlCount data.technology index)
  else .none

/-- Translation of `renderPage` (script.js 225-313). `indexArg = none` is a
call without the index argument, for which the default `index = 0` applies.
A `SyntaxError` of the navigation-link lookup leaves the content region
cleared and nothing else changed. An exception raised by a page-content
function leaves the content region cleared, the background set and the index
assignment done. Either skips the rest of the body. -/
def renderPage (browser : Browser) (s : State) (pageName : String)
    (indexArg : Option JsIndex) : Outcome :=
  let index := indexArg.getD (.int 0)
  match s.mainContentArea with
  | none => ⟨s, false⟩
  | some _ =>
    let s1 := { s with mainContentArea := some "", listeners := .none }
    if selectorRaises browser pageName then ⟨s1, true⟩
    else
      let s2 := { s1 with
        backgroundImage := "url('" ++ getBackgroundImagePath s1.innerWidth pageName ++ "')" }
      let r := renderSwitch browser.webpSupported s2 pageName index
      match r.2 with
      | .error _ => ⟨r.1, true⟩
      | .ok contentHtml =>
        let s4 := { r.1 with mainContentArea := some contentHtml, currentPage := pageName }
        let s5 := { s4 with listeners := attachListeners s4.data pageName index }
        if s5.mobileMenuOverlay = some true then ⟨toggleMobileMenu s5, false⟩ else ⟨s5, false⟩

/-- The callback that the resize handler schedules (script.js 328-340). -/
def resizeCallback (browser : Browser) (s : State) : Outcome :=
  if s.currentPage = "destination" then
    renderPage browser s s.currentPage (some s.currentDestinationIndex)
  else if s.currentPage = "crew" then
    renderPage browser s s.currentPage (some s.currentCrewIndex)
  else if s.currentPage = "technology" then
    renderPage browser s s.currentPage (some s.currentTechnologyIndex)
  else renderPage browser s s.currentPage none

/-- The message that the `catch` continuation mounts (script.js 360). -/
def fetchErrorMessage : String :=
  "<p style=\"color: red; text-align: center;\">Failed to load content. Please ensure assets/data.json exists and is valid.</p>"

/-- The `catch` continuation of the fetch chain (script.js 356-362). -/
def fetchCatch (s : State) : State :=
  match s.mainContentArea with
  | none => s
  | some _ => { s with mainContentArea := some fetchErrorMessage, listeners := .none }

/-- The second `then` continuation of the fetch chain (script.js 352-355); an
exception raised in it is passed to the `catch` continuation. -/
def fetchThen (browser : Browser) (s : State) (jsonData : Data) : State :=
  let o := renderPage browser { s with data := jsonData } "home" none
  if o.threw then fetchCatch o.state else o.state

/-- A character that cannot open markup where the templates interpolate a
content string: not `<` (60), which opens a tag in text, not a double quote
(34), which closes the `src` and `alt` attribute values, and not an apostrophe
(39) or ampersand (38), which can close the string literal inside the
`onerror` attribute. -/
def plainChar (c : Char) : Bool :=
  c != Char.ofNat 60 && c != Char.ofNat 34 && c != Char.ofNat 39 && c != Char.ofNat 38

/-- A content string without markup characters. -/
def plainString (text : String) : Bool :=
  text.data.all plainChar

/-- An optional path without markup characters. -/
def plainPath (path : Option String) : Bool :=
  match path with
  | none => true
  | some text => plainString text

/-- An image object whose paths have no markup characters. -/
def plainImages (imageObject : Option ImageVariantSet) : Bool :=
  match imageObject with
  | none => true
  | some o => plainPath o.webp && plainPath o.png && plainPath o.jpg

/-- A sequence, if present, all of whose records satisfy `p`. -/
def allRecords {α : Type} (p : α → Bool) (records : Option (List α)) : Bool :=
  match records with
  | none => true
  | some xs => xs.all p

/-- A content store none of whose strings contains a markup character, so
that every fragment holds exactly the elements its template writes. -/
def plainData (data : Data) : Bool :=
  allRecords (fun d : Destination => plainString d.name && plainString d.description
      && plainString d.distance && plainString d.travel && plainImages d.images)
      data.destinations
    && allRecords (fun c : CrewMember => plainString c.name && plainString c.role
      && plainString c.bio && plainImages c.images) data.crew
    && allRecords (fun t : TechnologyItem => plainString t.name && plainString t.description
      && plainImages t.images.portrait && plainImages t.images.landscape) data.technology

/-- The events of a session after start-up, other than the settling of the
fetch: a click on a navigation link or the logo with the given `data-page`, a
click on the Explore button, a click that reaches a tab or dot listener and
for which `parseInt(e.target.dataset...)` yields `parsed`, a change of the
viewport width, the run of the scheduled resize callback, and a click on a
menu control. -/
inductive Event where
  | navClick (page : String)
  | exploreClick
  | tabClick (parsed : JsIndex)
  | crewDotClick (parsed : JsIndex)
  | techDotClick (parsed : JsIndex)
  | viewportChange (innerWidth : Int)
  | resizeTimeout
  | menuToggle
  deriving DecidableEq, Repr

/-- Whether a click with target value `parsed` can reach one of the `n`
listeners of the mounted fragment: the target is one of the controls the
template wrote, with its own index below `n`, or, when a content string has
markup characters, an element which that string put into a fragment with
controls, with any value. -/
def clickReaches (data : Data) (n : Nat) (parsed : JsIndex) : Bool :=
  (match parsed with
    | .int k => decide (0 ≤ k ∧ k < (n : Int))
    | .nan => false)
  || (decide (0 < n) && !plainData data)

/-- Whether the state has a listener that reacts to the event: the controls of
a fragment react only while that fragment is mounted. -/
def Event.enabled (s : State) : Event → Bool
  | .navClick _ => true
  | .exploreClick => s.listeners = .explore
  | .tabClick parsed => match s.listeners with
    | .tabs n => clickReaches s.data n parsed
    | _ => false
  | .crewDotClick parsed => match s.listeners with
    | .crewDots n => clickReaches s.data n parsed
    | _ => false
  | .techDotClick parsed => match s.listeners with
    | .techDots n => clickReaches s.data n parsed
    | _ => false
  | .viewportChange _ => true
  | .resizeTimeout => true
  | .menuToggle => s.mobileMenuOverlay.isSome

/-- The state after the listener of an event has run (script.js 16-32,
282-305, 316-341). -/
def handle (browser : Browser) (s : State) : Event → State
  | .navClick page => (renderPage browser s page none).state
  | .exploreClick => (renderPage browser s "destination" none).state
  | .tabClick parsed => (renderPage browser s "destination" (some parsed)).state
  | .crewDotClick parsed => (renderPage browser s "crew" (some parsed)).state
  | .techDotClick parsed => (renderPage browser s "technology" (some parsed)).state
  | .viewportChange w => { s with innerWidth := w }
  | .resizeTimeout => (resizeCallback browser s).state
  | .menuToggle => toggleMobileMenu s

/-- The state after a sequence of events, each handled only if a listener
reacts to it. -/
def run (browser : Browser) (s : State) : List Event → State
  | [] => s
  | e :: es => run browser (if e.enabled s then handle browser s e else s) es

/-! ## Debounced resize handler (script.js 325-341) -/

/-- The timers of the window as far as the resize listener uses them, on a
clock that counts milliseconds: the current time, the id that the next
`setTimeout` returns, the scheduled callbacks that have not run yet (id and
due time), the variable `resizeTimeout`, and the times at which the re-render
callback has run. -/
structure ResizeTimer where
  now : Nat
  nextId : Nat
  pending : List (Nat × Nat)
  resizeTimeout : Option Nat
  renders : List Nat
  deriving DecidableEq, Repr

/-- The timers at start-up: nothing scheduled, `resizeTimeout` undefined. -/
def ResizeTimer.start : ResizeTimer :=
  { now := 0, nextId := 1, pending := [], resizeTimeout := none, renders := [] }

/-- The call `clearTimeout(id)`: drops the scheduled callback with that id, if
there is one. -/
def clearTimeout (id : Option Nat) (pending : List (Nat × Nat)) : List (Nat × Nat) :=
  pending.filter fun t => some t.1 != id

/-- The resize listener (script.js 326-341): `clearTimeout(resizeTimeout)`,
then `resizeTimeout = setTimeout(callback, 200)`. -/
def onResize (t : ResizeTimer) : ResizeTimer :=
  let pending := clearTimeout t.resizeTimeout t.pending
  { t with
    pending := pending ++ [(t.nextId, t.now + 200)]
    resizeTimeout := some t.nextId
    nextId := t.nextId + 1 }

/-- The clock advances by `ms` milliseconds: every scheduled callback that is
due by then runs, at its due time, and leaves the table. -/
def elapse (ms : Nat) (t : ResizeTimer) : ResizeTimer :=
  { t with
    now := t.now + ms
    pending := t.pending.filter fun p => t.now + ms < p.2
    renders := t.renders ++ (t.pending.filter fun p => p.2 ≤ t.now + ms).map Prod.snd }

/-- What happens to the resize timer: a resize event, or time passing. -/
inductive TimerEvent where
  | resize
  | wait (ms : Nat)
  deriving DecidableEq, Repr

/-- One step of the resize timer. -/
def timerStep (t : ResizeTimer) : TimerEvent → ResizeTimer
  | .resize => onResize t
  | .wait ms => elapse ms t

/-- The resize timer after a sequence of events. -/
def timerRun (t : ResizeTimer) (events : List TimerEvent) : ResizeTimer :=
  events.foldl timerStep t

/-- The resize events that follow the first one of a burst, each after the
given gap in milliseconds. -/
def followUps : List Nat → List TimerEvent
  | [] => []
  | gap :: gaps => .wait gap :: .resize :: followUps gaps

/-- A burst of resize events: a first one, then one more after each gap. -/
def burst (gaps : List Nat) : List TimerEvent :=
  .resize :: followUps gaps

/-! ## Predicates used in the statements -/

/-- The fragment that the page-content function selected by `pageName`
returns for `index`, with the home fragment for `home` and for any other
name. -/
def pageContent (webpSupported : Bool) (innerWidth : Int) (data : Data) (pageName : String)
    (index : JsIndex) : Except String String :=
  if pageName = "destination" then getDestinationPageContent webpSupported data index
  else if pageName = "crew" then getCrewPageContent webpSupported data index
  else if pageName = "technology" then
    getTechnologyPageContent webpSupported innerWidth data index
  else .ok getHomePageContent

/-- The remembered index of the current page; `none` for a page without
index. -/
def rememberedIndex (s : State) : Option JsIndex :=
  if s.currentPage = "destination" then some s.currentDestinationIndex
  else if s.currentPage = "crew" then some s.currentCrewIndex
  else if s.currentPage = "technology" then some s.currentTechnologyIndex
  else none

/-- The resize re-render succeeds: the fragment of the current page at its
remembered index can be built, and the scheduled callback mounts exactly that
fragment without raising. -/
def ResizeRenders (browser : Browser) (s : State) : Prop :=
  ∃ html, pageContent browser.webpSupported s.innerWidth s.data s.currentPage
        ((rememberedIndex s).getD (.int 0)) = .ok html
    ∧ (resizeCallback browser s).state.mainContentArea = some html
    ∧ (resizeCallback browser s).threw = false

/-- The current page can be rendered: the navigation-link lookup accepts its
name and the content sequence it reads is loaded. -/
def PageBuilds (browser : Browser) (s : State) : Prop :=
  selectorRaises browser s.currentPage = false
    ∧ (s.currentPage = "destination" → s.data.destinations.isSome = true)
    ∧ (s.currentPage = "crew" → s.data.crew.isSome = true)
    ∧ (s.currentPage = "technology" → s.data.technology.isSome = true)

/-- The length of a content sequence, 0 when the sequence is missing. -/
def seqLength {α : Type} (records : Option (List α)) : Nat :=
  match records with
  | none => 0
  | some xs => xs.length

/-- An index is 0 or a position of the sequence. -/
def ZeroOrInRange {α : Type} (records : Option (List α)) (index : JsIndex) : Prop :=
  index = .int 0 ∨ ∃ k : Int, index = .int k ∧ 0 ≤ k ∧ k < seqLength records

/-- The controls with a listener are controls of the sequence of their page. -/
def ListenersInRange (s : State) : Prop :=
  match s.listeners with
  | .tabs n => n ≤ seqLength s.data.destinations
  | .crewDots n => n ≤ seqLength s.data.crew
  | .techDots n => n ≤ seqLength s.data.technology
  | _ => True

/-- The invariant of a session with plain content: each remembered index is 0
or a position of its sequence, and the listeners belong to controls of
positions of their sequence. -/
def SessionInv (s : State) : Prop :=
  plainData s.data = true
    ∧ ZeroOrInRange s.data.destinations s.currentDestinationIndex
    ∧ ZeroOrInRange s.data.crew s.currentCrewIndex
    ∧ ZeroOrInRange s.data.technology s.currentTechnologyIndex
    ∧ ListenersInRange s

/-- At most one callback is scheduled, and it is the one whose id
`resizeTimeout` holds. -/
def TimerInv (t : ResizeTimer) : Prop :=
  t.pending = [] ∨ ∃ id due, t.pending = [(id, due)] ∧ t.resizeTimeout = some id

/-- The callback scheduled by the latest resize event is the only one pending
and is due 200ms after that event. -/
def Armed (t : ResizeTimer) : Prop :=
  ∃ id, t.pending = [(id, t.now + 200)] ∧ t.resizeTimeout = some id

/-- The first ten characters of a fragment, enough to tell the fragments of
the script apart. -/
def fragmentHead (html : String) : List Char :=
  html.data.take 10

/-- What a session shows once the fetch has failed: the content store is still
`{}` and the content region, if it exists, holds the error message, nothing, or
the home fragment. -/
def AfterFailure (s : State) : Prop :=
  s.data = emptyData
    ∧ (s.mainContentArea = none ∨ s.mainContentArea = some fetchErrorMessage
        ∨ s.mainContentArea = some "" ∨ s.mainContentArea = some getHomePageContent)

/-! ## Sample content, used to instantiate the theorems -/

/-- Three destinations in the shape of `data.json`. -/
def sampleDestinations : List Destination :=
  [ ⟨"Moon", "See our planet as you have never seen it before.", "384,400 km", "3 days",
      some ⟨some "./assets/destination/image-moon.webp",
        some "./assets/destination/image-moon.png", none⟩⟩,
    ⟨"Mars", "Do not forget to pack your hiking boots.", "225 mil. km", "9 months",
      some ⟨some "./assets/destination/image-mars.webp",
        some "./assets/destination/image-mars.png", none⟩⟩,
    ⟨"Europa", "The smallest of the four Galilean moons.", "628 mil. km", "3 years",
      some ⟨some "./assets/destination/image-europa.webp",
        some "./assets/destination/image-europa.png", none⟩⟩ ]

/-- Two crew members in the shape of `data.json`. -/
def sampleCrew : List CrewMember :=
  [ ⟨"Douglas Hurley", "Commander", "A former NASA astronaut.",
      some ⟨some "./assets/crew/image-douglas-hurley.webp",
        some "./assets/crew/image-douglas-hurley.png", none⟩⟩,
    ⟨"Mark Shuttleworth", "Mission Specialist", "The first South African in space.",
      some ⟨some "./assets/crew/image-mark-shuttleworth.webp",
        some "./assets/crew/image-mark-shuttleworth.png", none⟩⟩ ]

/-- Two technology items in the shape of `data.json`. -/
def sampleTechnology : List TechnologyItem :=
  [ ⟨"Launch vehicle", "A rocket-propelled vehicle.",
      ⟨some ⟨none, none, some "./assets/technology/image-launch-vehicle-portrait.jpg"⟩,
        some ⟨none, none, some "./assets/technology/image-launch-vehicle-landscape.jpg"⟩⟩⟩,
    ⟨"Spaceport", "A site for launching spacecraft.",
      ⟨some ⟨none, none, some "./assets/technology/image-spaceport-portrait.jpg"⟩,
        some ⟨none, none, some "./assets/technology/image-spaceport-landscape.jpg"⟩⟩⟩ ]

/-- A content file with the three sample sequences. -/
def sampleData : Data :=
  ⟨some sampleDestinations, some sampleCrew, some sampleTechnology⟩

/-- A browser with WebP support that rejects the selector of every page name
that is not clean. -/
def sampleBrowser : Browser :=
  ⟨true, fun _ => true⟩

/-- A desktop session right after start-up, with an empty content region and a
closed menu overlay. -/
def sampleStart : State :=
  initialState 1440 (some "") (some false)

/-! ## Theorems: image resolver -/

/-- C1: the path returned by `getBackgroundImagePath` is
`./assets/p/background-p-<class>.jpg`, where the class is `desktop` exactly
when the width is at least 1024, `tablet` exactly when it is at least 768 and
below 1024, and `mobile` exactly when it is below 768. -/
theorem getBackgroundImagePath_viewport_class (w : Int) (p : String) :
    getBackgroundImagePath w p
        = "./assets/" ++ p ++ "/background-" ++ p ++ "-" ++ breakpoint w ++ ".jpg"
      ∧ (breakpoint w = "desktop" ↔ w ≥ 1024)
      ∧ (breakpoint w = "tablet" ↔ (768 ≤ w ∧ w < 1024))
      ∧ (breakpoint w = "mobile" ↔ w < 768) := by
  refine ⟨rfl, ?_, ?_, ?_⟩
  · unfold breakpoint
    by_cases h1 : w ≥ 1024
    · simp [h1]
    · by_cases h2 : w ≥ 768 <;> simp [h1, h2]
  · unfold breakpoint
    by_cases h1 : w ≥ 1024
    · simp [h1]
    · by_cases h2 : w ≥ 768
      · simp [h1, h2]
        omega
      · simp [h1, h2]
  · unfold breakpoint
    by_cases h1 : w ≥ 1024
    · simp [h1]
      omega
    · by_cases h2 : w ≥ 768
      · simp [h1, h2]
      · simp [h1, h2]
        omega

/-- C3: for an image object `v` and either value of the cached flag,
`getOptimizedImagePath` returns the webp path when the flag is set and a webp
path is present (a non-empty string), otherwise the png path when present,
otherwise the jpg path when present, otherwise the empty string; with only a
jpg path the result is that path whatever the flag. -/
theorem getOptimizedImagePath_selection (flag : Bool) (v : ImageVariantSet) :
    getOptimizedImagePath flag (some v)
        = (if flag = true ∧ truthy v.webp = true then v.webp.getD ""
           else if truthy v.png = true then v.png.getD ""
           else if truthy v.jpg = true then v.jpg.getD ""
           else "")
      ∧ ∀ path : String, getOptimizedImagePath flag (some ⟨none, none, some path⟩) = path := by
  constructor
  · unfold getOptimizedImagePath
    cases flag <;> simp
  · intro path
    unfold getOptimizedImagePath
    by_cases h : path = ""
    · subst h; cases flag <;> simp [truthy]
    · cases flag <;> simp [truthy, h]

/-- C9: `getTechnologyImagePath` resolves the portrait image object when the
width is at least 1024 and the landscape image object when it is below. -/
theorem getTechnologyImagePath_orientation (flag : Bool) (w : Int) (t : TechnologyItem) :
    (w ≥ 1024 → getTechnologyImagePath flag w t = getOptimizedImagePath flag t.images.portrait)
      ∧ (w < 1024 →
          getTechnologyImagePath flag w t = getOptimizedImagePath flag t.images.landscape) := by
  unfold getTechnologyImagePath
  constructor
  · intro h; simp [h]
  · intro h
    have h' : ¬ w ≥ 1024 := by omega
    simp [h']

/-- Witness for C9: a launch vehicle record at widths 1024 and 1023. -/
theorem getTechnologyImagePath_orientation_witness :
    getTechnologyImagePath true 1024
        ⟨"Launch vehicle", "A launch vehicle",
          ⟨some ⟨none, none, some "p.jpg"⟩, some ⟨none, none, some "l.jpg"⟩⟩⟩
        = getOptimizedImagePath true (some ⟨none, none, some "p.jpg"⟩)
      ∧ getTechnologyImagePath true 1023
        ⟨"Launch vehicle", "A launch vehicle",
          ⟨some ⟨none, none, some "p.jpg"⟩, some ⟨none, none, some "l.jpg"⟩⟩⟩
        = getOptimizedImagePath true (some ⟨none, none, some "l.jpg"⟩) :=
  ⟨(getTechnologyImagePath_orientation true 1024 _).1 (by decide),
   (getTechnologyImagePath_orientation true 1023 _).2 (by decide)⟩

/-! ## Theorems: debounced resize -/

theorem onResize_pending (t : ResizeTimer) (h : TimerInv t) :
    (onResize t).pending = [(t.nextId, t.now + 200)]
      ∧ (onResize t).resizeTimeout = some t.nextId
      ∧ (onResize t).now = t.now ∧ (onResize t).renders = t.renders := by
  rcases h with h | ⟨id, due, h, hid⟩
  · simp [onResize, clearTimeout, h]
  · simp [onResize, clearTimeout, h, hid]

theorem timerInv_onResize (t : ResizeTimer) (h : TimerInv t) : TimerInv (onResize t) :=
  Or.inr ⟨t.nextId, t.now + 200, (onResize_pending t h).1, (onResize_pending t h).2.1⟩

theorem timerInv_elapse (ms : Nat) (t : ResizeTimer) (h : TimerInv t) :
    TimerInv (elapse ms t) := by
  rcases h with h | ⟨id, due, h, hid⟩
  · left; simp [elapse, h]
  · by_cases hd : t.now + ms < due
    · right; exact ⟨id, due, by simp [elapse, h, hd], by simpa [elapse] using hid⟩
    · left; simp [elapse, h, hd]

theorem timerInv_step (t : ResizeTimer) (e : TimerEvent) (h : TimerInv t) :
    TimerInv (timerStep t e) := by
  cases e with
  | resize => exact timerInv_onResize t h
  | wait ms => exact timerInv_elapse ms t h

theorem timerInv_run (events : List TimerEvent) (t : ResizeTimer) (h : TimerInv t) :
    TimerInv (timerRun t events) := by
  induction events generalizing t with
  | nil => exact h
  | cons e es ih => exact ih (timerStep t e) (timerInv_step t e h)

theorem timerInv_length (t : ResizeTimer) (h : TimerInv t) : t.pending.length ≤ 1 := by
  rcases h with h | ⟨id, due, h, _⟩ <;> simp [h]

theorem armed_onResize (t : ResizeTimer) (h : TimerInv t) : Armed (onResize t) := by
  obtain ⟨h1, h2, h3, _⟩ := onResize_pending t h
  exact ⟨t.nextId, by rw [h1, h3], h2⟩

theorem armed_inv (t : ResizeTimer) (h : Armed t) : TimerInv t := by
  obtain ⟨id, h1, h2⟩ := h
  exact Or.inr ⟨id, _, h1, h2⟩

theorem armed_followUp (t : ResizeTimer) (gap : Nat) (h : Armed t) (hgap : gap < 200) :
    Armed (onResize (elapse gap t)) ∧ (onResize (elapse gap t)).now = t.now + gap
      ∧ (onResize (elapse gap t)).renders = t.renders := by
  have hinv : TimerInv (elapse gap t) := timerInv_elapse gap t (armed_inv t h)
  obtain ⟨_, _, h3, h4⟩ := onResize_pending (elapse gap t) hinv
  refine ⟨armed_onResize _ hinv, by rw [h3]; rfl, ?_⟩
  obtain ⟨id, h1, _⟩ := h
  rw [h4]
  have : ¬ (t.now + 200 ≤ t.now + gap) := by omega
  simp [elapse, h1, this]

theorem armed_followUps (gaps : List Nat) (t : ResizeTimer) (h : Armed t)
    (hgaps : ∀ gap ∈ gaps, gap < 200) :
    Armed (timerRun t (followUps gaps)) ∧ (timerRun t (followUps gaps)).now = t.now + gaps.sum
      ∧ (timerRun t (followUps gaps)).renders = t.renders := by
  induction gaps generalizing t with
  | nil => exact ⟨h, by simp [timerRun, followUps], rfl⟩
  | cons gap gaps ih =>
    obtain ⟨ha, hn, hr⟩ := armed_followUp t gap h (hgaps gap (by simp))
    obtain ⟨ha2, hn2, hr2⟩ := ih (onResize (elapse gap t)) ha
      (fun g hg => hgaps g (by simp [hg]))
    refine ⟨ha2, ?_, ?_⟩
    · show (timerRun (onResize (elapse gap t)) (followUps gaps)).now = _
      rw [hn2, hn, List.sum_cons, Nat.add_assoc]
    · show (timerRun (onResize (elapse gap t)) (followUps gaps)).renders = _
      rw [hr2, hr]

theorem armed_elapse (t : ResizeTimer) (ms : Nat) (h : Armed t) (hms : 200 ≤ ms) :
    (elapse ms t).renders = t.renders ++ [t.now + 200] ∧ (elapse ms t).pending = [] := by
  obtain ⟨id, h1, _⟩ := h
  have h2 : t.now + 200 ≤ t.now + ms := by omega
  have h3 : ¬ (t.now + ms < t.now + 200) := by omega
  simp [elapse, h1, h2, h3]

/-- C10: in every state that the resize timer reaches at most one callback is
pending; a burst of resize events whose gaps are all below 200ms, started in
any reachable state, runs no re-render while it lasts, leaves one callback due
200ms after its last event, and once 200ms or more have passed exactly one
re-render has been added, at that due time, and nothing is pending. -/
theorem resize_debounce (events : List TimerEvent) (gaps : List Nat) (ms : Nat)
    (hgaps : ∀ gap ∈ gaps, gap < 200) (hms : 200 ≤ ms) :
    (timerRun ResizeTimer.start events).pending.length ≤ 1
      ∧ (timerRun (timerRun ResizeTimer.start events) (burst gaps)).renders
          = (timerRun ResizeTimer.start events).renders
      ∧ (timerRun (timerRun ResizeTimer.start events) (burst gaps)).now
          = (timerRun ResizeTimer.start events).now + gaps.sum
      ∧ (timerRun (timerRun ResizeTimer.start events) (burst gaps)).pending.map Prod.snd
          = [(timerRun ResizeTimer.start events).now + gaps.sum + 200]
      ∧ (timerRun (timerRun ResizeTimer.start events) (burst gaps ++ [.wait ms])).renders
          = (timerRun ResizeTimer.start events).renders
              ++ [(timerRun ResizeTimer.start events).now + gaps.sum + 200]
      ∧ (timerRun (timerRun ResizeTimer.start events) (burst gaps ++ [.wait ms])).pending
          = [] := by
  have hinv : TimerInv (timerRun ResizeTimer.start events) :=
    timerInv_run events _ (Or.inl rfl)
  generalize timerRun ResizeTimer.start events = t0 at hinv ⊢
  obtain ⟨_, _, h3, h4⟩ := onResize_pending t0 hinv
  obtain ⟨ha, hn, hr⟩ := armed_followUps gaps (onResize t0) (armed_onResize t0 hinv) hgaps
  have hb : timerRun t0 (burst gaps) = timerRun (onResize t0) (followUps gaps) := rfl
  have hw : timerRun t0 (burst gaps ++ [.wait ms])
      = elapse ms (timerRun (onResize t0) (followUps gaps)) := by
    simp [timerRun, burst, List.foldl_append, timerStep]
  obtain ⟨he1, he2⟩ := armed_elapse _ ms ha hms
  refine ⟨timerInv_length t0 hinv, ?_, ?_, ?_, ?_, ?_⟩
  · rw [hb, hr, h4]
  · rw [hb, hn, h3]
  · obtain ⟨id, hp, _⟩ := ha
    rw [hb, hp, hn, h3]
    rfl
  · rw [hw, he1, hr, h4, hn, h3]
  · rw [hw, he2]

/-- Witness for C10: three resize events 50ms and 199ms apart, after an
earlier resize whose re-render has run, followed by 200ms of quiet. -/
theorem resize_debounce_witness :
    (timerRun (timerRun ResizeTimer.start [.resize, .wait 300]) (burst [50, 199] ++ [.wait 200])).renders
        = [200, 749]
      ∧ (timerRun (timerRun ResizeTimer.start [.resize, .wait 300])
          (burst [50, 199] ++ [.wait 200])).pending = [] :=
  have h := resize_debounce [.resize, .wait 300] [50, 199] 200 (by decide) (by decide)
  ⟨h.2.2.2.2.1.trans (by decide), h.2.2.2.2.2⟩

/-! ## Theorems: page controller -/

theorem cleanName_home : cleanName "home" = true := by decide

theorem cleanName_destination : cleanName "destination" = true := by decide

theorem cleanName_crew : cleanName "crew" = true := by decide

theorem cleanName_technology : cleanName "technology" = true := by decide

theorem selectorRaises_clean (env : Browser) (page : String) (h : cleanName page = true) :
    selectorRaises env page = false := by
  simp [selectorRaises, h]

theorem renderPage_missing (env : Browser) (s : State) (page : String) (idx : Option JsIndex)
    (h : s.mainContentArea = none) : renderPage env s page idx = ⟨s, false⟩ := by
  simp [renderPage, h]

theorem renderPage_rejected (env : Browser) (s : State) (page : String) (idx : Option JsIndex)
    (old : String) (hm : s.mainContentArea = some old) (hr : selectorRaises env page = true) :
    renderPage env s page idx
      = ⟨{ s with mainContentArea := some "", listeners := .none }, true⟩ := by
  simp [renderPage, hm, hr]

theorem renderSwitch_fst (flag : Bool) (s : State) (page : String) (i : JsIndex) :
    (renderSwitch flag s page i).1 =
      { s with
        currentDestinationIndex := if page = "destination" then i else s.currentDestinationIndex
        currentCrewIndex := if page = "crew" then i else s.currentCrewIndex
        currentTechnologyIndex := if page = "technology" then i else s.currentTechnologyIndex } := by
  unfold renderSwitch
  by_cases h1 : page = "home"
  · subst h1; simp
  · by_cases h2 : page = "destination"
    · subst h2; simp
    · by_cases h3 : page = "crew"
      · subst h3; simp
      · by_cases h4 : page = "technology"
        · subst h4; simp
        · simp [h1, h2, h3, h4]

theorem renderPage_frame (env : Browser) (s : State) (page : String) (idx : Option JsIndex) :
    (renderPage env s page idx).state.data = s.data
      ∧ (renderPage env s page idx).state.innerWidth = s.innerWidth
      ∧ (renderPage env s page idx).state.currentDestinationIndex
          = (if s.mainContentArea.isSome = true ∧ selectorRaises env page = false
                ∧ page = "destination" then idx.getD (.int 0)
             else s.currentDestinationIndex)
      ∧ (renderPage env s page idx).state.currentCrewIndex
          = (if s.mainContentArea.isSome = true ∧ selectorRaises env page = false
                ∧ page = "crew" then idx.getD (.int 0)
             else s.currentCrewIndex)
      ∧ (renderPage env s page idx).state.currentTechnologyIndex
          = (if s.mainContentArea.isSome = true ∧ selectorRaises env page = false
                ∧ page = "technology" then idx.getD (.int 0)
             else s.currentTechnologyIndex) := by
  cases hm : s.mainContentArea with
  | none => simp [renderPage, hm]
  | some old =>
    cases hr : selectorRaises env page with
    | true => simp [renderPage_rejected env s page idx old hm hr]
    | false =>
      simp only [renderPage, hm, hr, Bool.false_eq_true, if_false]
      split
      · simp [renderSwitch_fst]
      · split <;> simp [renderSwitch_fst, toggleMobileMenu]

theorem renderSwitch_snd (flag : Bool) (s : State) (page : String) (i : JsIndex) :
    (renderSwitch flag s page i).2 = pageContent flag s.innerWidth s.data page i := by
  unfold renderSwitch pageContent
  by_cases h1 : page = "home"
  · subst h1; simp
  · by_cases h2 : page = "destination"
    · subst h2; simp
    · by_cases h3 : page = "crew"
      · subst h3; simp
      · by_cases h4 : page = "technology"
        · subst h4; simp
        · simp [h1, h2, h3, h4]

theorem renderPage_ok (env : Browser) (s : State) (page : String) (idx : Option JsIndex)
    (old html : String) (hm : s.mainContentArea = some old)
    (hv : selectorRaises env page = false)
    (hc : pageContent env.webpSupported s.innerWidth s.data page (idx.getD (.int 0)) = .ok html) :
    (renderPage env s page idx).threw = false
      ∧ (renderPage env s page idx).state.mainContentArea = some html
      ∧ (renderPage env s page idx).state.currentPage = page
      ∧ (renderPage env s page idx).state.listeners
          = attachListeners s.data page (idx.getD (.int 0)) := by
  simp only [renderPage, hm, hv, renderSwitch_snd, hc, Bool.false_eq_true, if_false]
  split <;> simp [renderSwitch_fst, toggleMobileMenu]

theorem renderPage_error (env : Browser) (s : State) (page : String) (idx : Option JsIndex)
    (old e : String) (hm : s.mainContentArea = some old)
    (hv : selectorRaises env page = false)
    (hc : pageContent env.webpSupported s.innerWidth s.data page (idx.getD (.int 0))
      = .error e) :
    (renderPage env s page idx).threw = true
      ∧ (renderPage env s page idx).state.mainContentArea = some ""
      ∧ (renderPage env s page idx).state.currentPage = s.currentPage
      ∧ (renderPage env s page idx).state.listeners = .none := by
  simp [renderPage, hm, hv, renderSwitch_snd, hc, renderSwitch_fst]

/-! ### The session invariant -/

theorem controlCount_le {α : Type} (records : Option (List α)) (i : JsIndex) :
    controlCount records i ≤ seqLength records := by
  cases records with
  | none => simp [controlCount, seqLength]
  | some xs =>
    simp only [controlCount, seqLength]
    split <;> simp

theorem listenersInRange_none (s : State) (h : s.listeners = .none) : ListenersInRange s := by
  simp [ListenersInRange, h]

theorem listenersInRange_attach (s : State) (page : String) (i : JsIndex)
    (h : s.listeners = attachListeners s.data page i) : ListenersInRange s := by
  unfold attachListeners at h
  unfold ListenersInRange
  split_ifs at h <;> simp [h, controlCount_le]

theorem renderPage_listeners (env : Browser) (s : State) (page : String)
    (idx : Option JsIndex) :
    (renderPage env s page idx).state.listeners = s.listeners
      ∨ (renderPage env s page idx).state.listeners = .none
      ∨ (renderPage env s page idx).state.listeners
          = attachListeners s.data page (idx.getD (.int 0)) := by
  cases hm : s.mainContentArea with
  | none => left; rw [renderPage_missing env s page idx hm]
  | some old =>
    cases hr : selectorRaises env page with
    | true => right; left; rw [renderPage_rejected env s page idx old hm hr]
    | false =>
      cases hc : pageContent env.webpSupported s.innerWidth s.data page (idx.getD (.int 0)) with
      | error e => right; left; exact (renderPage_error env s page idx old e hm hr hc).2.2.2
      | ok html => right; right; exact (renderPage_ok env s page idx old html hm hr hc).2.2.2

theorem sessionInv_renderPage (env : Browser) (s : State) (page : String)
    (idx : Option JsIndex) (h : SessionInv s)
    (hd : page = "destination" → ZeroOrInRange s.data.destinations (idx.getD (.int 0)))
    (hc : page = "crew" → ZeroOrInRange s.data.crew (idx.getD (.int 0)))
    (ht : page = "technology" → ZeroOrInRange s.data.technology (idx.getD (.int 0))) :
    SessionInv (renderPage env s page idx).state := by
  obtain ⟨h0, h1, h2, h3, h4⟩ := h
  obtain ⟨f1, _, f3, f4, f5⟩ := renderPage_frame env s page idx
  refine ⟨by rw [f1]; exact h0, ?_, ?_, ?_, ?_⟩
  · rw [f1, f3]
    split_ifs with hp
    · exact hd hp.2.2
    · exact h1
  · rw [f1, f4]
    split_ifs with hp
    · exact hc hp.2.2
    · exact h2
  · rw [f1, f5]
    split_ifs with hp
    · exact ht hp.2.2
    · exact h3
  · rcases renderPage_listeners env s page idx with hl | hl | hl
    · unfold ListenersInRange at h4 ⊢
      rw [hl, f1]
      exact h4
    · exact listenersInRange_none _ hl
    · exact listenersInRange_attach _ page (idx.getD (.int 0)) (by rw [hl, f1])

theorem zeroOrInRange_zero {α : Type} (records : Option (List α)) :
    ZeroOrInRange records (.int 0) :=
  Or.inl rfl

theorem zeroOrInRange_of_click {α : Type} (records : Option (List α)) (data : Data) (n : Nat)
    (parsed : JsIndex) (hp : plainData data = true) (hc : clickReaches data n parsed = true)
    (hn : n ≤ seqLength records) : ZeroOrInRange records parsed := by
  unfold clickReaches at hc
  rw [hp] at hc
  cases parsed with
  | nan => simp at hc
  | int k =>
    simp only [Bool.not_true, Bool.and_false, Bool.or_false, decide_eq_true_eq] at hc
    exact Or.inr ⟨k, rfl, hc.1, by omega⟩

theorem sessionInv_handle (env : Browser) (s : State) (e : Event) (h : SessionInv s)
    (he : e.enabled s = true) : SessionInv (handle env s e) := by
  cases e with
  | navClick page =>
    exact sessionInv_renderPage env s page none h (fun _ => zeroOrInRange_zero _)
      (fun _ => zeroOrInRange_zero _) (fun _ => zeroOrInRange_zero _)
  | exploreClick =>
    exact sessionInv_renderPage env s "destination" none h (fun _ => zeroOrInRange_zero _)
      (fun _ => zeroOrInRange_zero _) (fun _ => zeroOrInRange_zero _)
  | tabClick parsed =>
    refine sessionInv_renderPage env s "destination" (some parsed) h ?_
      (fun hp => absurd hp (by decide)) (fun hp => absurd hp (by decide))
    intro _
    have h4 := h.2.2.2.2
    unfold ListenersInRange at h4
    unfold Event.enabled at he
    cases hl : s.listeners with
    | tabs n =>
      rw [hl] at h4 he
      exact zeroOrInRange_of_click _ s.data n parsed h.1 he h4
    | _ => rw [hl] at he; simp at he
  | crewDotClick parsed =>
    refine sessionInv_renderPage env s "crew" (some parsed) h
      (fun hp => absurd hp (by decide)) ?_ (fun hp => absurd hp (by decide))
    intro _
    have h4 := h.2.2.2.2
    unfold ListenersInRange at h4
    unfold Event.enabled at he
    cases hl : s.listeners with
    | crewDots n =>
      rw [hl] at h4 he
      exact zeroOrInRange_of_click _ s.data n parsed h.1 he h4
    | _ => rw [hl] at he; simp at he
  | techDotClick parsed =>
    refine sessionInv_renderPage env s "technology" (some parsed) h
      (fun hp => absurd hp (by decide)) (fun hp => absurd hp (by decide)) ?_
    intro _
    have h4 := h.2.2.2.2
    unfold ListenersInRange at h4
    unfold Event.enabled at he
    cases hl : s.listeners with
    | techDots n =>
      rw [hl] at h4 he
      exact zeroOrInRange_of_click _ s.data n parsed h.1 he h4
    | _ => rw [hl] at he; simp at he
  | viewportChange w => exact h
  | resizeTimeout =>
    show SessionInv (resizeCallback env s).state
    unfold resizeCallback
    split_ifs with p1 p2 p3
    · exact sessionInv_renderPage env s _ _ h (fun _ => h.2.1)
        (fun hp => absurd (p1 ▸ hp) (by decide)) (fun hp => absurd (p1 ▸ hp) (by decide))
    · exact sessionInv_renderPage env s _ _ h (fun hp => absurd hp p1) (fun _ => h.2.2.1)
        (fun hp => absurd (p2 ▸ hp) (by decide))
    · exact sessionInv_renderPage env s _ _ h (fun hp => absurd hp p1) (fun hp => absurd hp p2)
        (fun _ => h.2.2.2.1)
    · exact sessionInv_renderPage env s _ _ h (fun hp => absurd hp p1) (fun hp => absurd hp p2)
        (fun hp => absurd hp p3)
  | menuToggle => exact h

theorem sessionInv_run (env : Browser) (events : List Event) (s : State) (h : SessionInv s) :
    SessionInv (run env s events) := by
  induction events generalizing s with
  | nil => exact h
  | cons e es ih =>
    unfold run
    apply ih
    split_ifs with he
    · exact sessionInv_handle env s e h he
    · exact h

theorem handle_data (env : Browser) (s : State) (e : Event) : (handle env s e).data = s.data := by
  cases e with
  | resizeTimeout =>
    show (resizeCallback env s).state.data = s.data
    unfold resizeCallback
    split_ifs <;> exact (renderPage_frame env s _ _).1
  | viewportChange w => rfl
  | menuToggle => rfl
  | _ => exact (renderPage_frame env s _ _).1

theorem run_data (env : Browser) (events : List Event) (s : State) :
    (run env s events).data = s.data := by
  induction events generalizing s with
  | nil => rfl
  | cons e es ih =>
    unfold run
    rw [ih]
    split_ifs
    · exact handle_data env s e
    · rfl

theorem sessionInv_initial (w : Int) (content : Option String) (overlay : Option Bool) :
    SessionInv (initialState w content overlay) :=
  ⟨rfl, Or.inl rfl, Or.inl rfl, Or.inl rfl, trivial⟩

theorem zeroOrInRange_missing {α : Type} (i : JsIndex)
    (h : ZeroOrInRange (none : Option (List α)) i) : i = .int 0 := by
  rcases h with h | ⟨k, _, h1, h2⟩
  · exact h
  · simp only [seqLength] at h2
    omega

theorem sessionInv_fetchCatch (s : State) (h : SessionInv s) : SessionInv (fetchCatch s) := by
  unfold fetchCatch
  split
  · exact h
  · exact ⟨h.1, h.2.1, h.2.2.1, h.2.2.2.1, trivial⟩

theorem fetchCatch_data (s : State) : (fetchCatch s).data = s.data := by
  unfold fetchCatch
  split <;> rfl

theorem sessionInv_setData (s : State) (jsonData : Data) (h : SessionInv s)
    (hd : s.data = emptyData) (hp : plainData jsonData = true) :
    SessionInv { s with data := jsonData } := by
  obtain ⟨_, h1, h2, h3, h4⟩ := h
  rw [hd] at h1 h2 h3
  refine ⟨hp, ?_, ?_, ?_, ?_⟩
  · exact Or.inl (zeroOrInRange_missing _ h1)
  · exact Or.inl (zeroOrInRange_missing _ h2)
  · exact Or.inl (zeroOrInRange_missing _ h3)
  · unfold ListenersInRange at h4 ⊢
    rw [hd] at h4
    cases hl : s.listeners with
    | none => trivial
    | explore => trivial
    | tabs n =>
      rw [hl] at h4
      have : n = 0 := by simpa [seqLength, emptyData] using h4
      simp [this]
    | crewDots n =>
      rw [hl] at h4
      have : n = 0 := by simpa [seqLength, emptyData] using h4
      simp [this]
    | techDots n =>
      rw [hl] at h4
      have : n = 0 := by simpa [seqLength, emptyData] using h4
      simp [this]

theorem fetchThen_data (env : Browser) (s : State) (jsonData : Data) :
    (fetchThen env s jsonData).data = jsonData := by
  simp only [fetchThen]
  split_ifs
  · rw [fetchCatch_data]
    exact (renderPage_frame env _ _ _).1
  · exact (renderPage_frame env _ _ _).1

theorem sessionInv_fetchThen (env : Browser) (s : State) (jsonData : Data) (h : SessionInv s)
    (hd : s.data = emptyData) (hp : plainData jsonData = true) :
    SessionInv (fetchThen env s jsonData) := by
  have h1 : SessionInv (renderPage env { s with data := jsonData } "home" none).state :=
    sessionInv_renderPage env _ "home" none (sessionInv_setData s jsonData h hd hp)
      (fun _ => zeroOrInRange_zero _) (fun _ => zeroOrInRange_zero _)
      (fun _ => zeroOrInRange_zero _)
  simp only [fetchThen]
  split_ifs
  · exact sessionInv_fetchCatch _ h1
  · exact h1

theorem sessionInv_loaded (env : Browser) (w : Int) (content : Option String)
    (overlay : Option Bool) (jsonData : Data) (before after : List Event)
    (hp : plainData jsonData = true) :
    SessionInv (run env (fetchThen env (run env (initialState w content overlay) before)
        jsonData) after)
      ∧ (run env (fetchThen env (run env (initialState w content overlay) before)
          jsonData) after).data = jsonData := by
  constructor
  · apply sessionInv_run
    apply sessionInv_fetchThen
    · exact sessionInv_run env before _ (sessionInv_initial w content overlay)
    · rw [run_data]
      rfl
    · exact hp
  · rw [run_data, fetchThen_data]

/-- C7 (amended): in a session in which the fetch succeeded with content whose
strings contain no markup character, whatever events came before and after the
load, each of the three remembered indices is 0 or a position of its content
sequence; hence it lies in `[0, length)` whenever that sequence is not
empty. -/
theorem remembered_indices_zero_or_in_range (env : Browser) (w : Int)
    (content : Option String) (overlay : Option Bool) (destinations : List Destination)
    (crew : List CrewMember) (technology : List TechnologyItem) (before after : List Event)
    (s : State) (hplain : plainData ⟨some destinations, some crew, some technology⟩ = true)
    (hs : s = run env (fetchThen env (run env (initialState w content overlay) before)
      ⟨some destinations, some crew, some technology⟩) after) :
    (s.currentDestinationIndex = .int 0
        ∨ ∃ k : Int, s.currentDestinationIndex = .int k ∧ 0 ≤ k ∧ k < destinations.length)
      ∧ (s.currentCrewIndex = .int 0
          ∨ ∃ k : Int, s.currentCrewIndex = .int k ∧ 0 ≤ k ∧ k < crew.length)
      ∧ (s.currentTechnologyIndex = .int 0
          ∨ ∃ k : Int, s.currentTechnologyIndex = .int k ∧ 0 ≤ k ∧ k < technology.length)
      ∧ (destinations ≠ [] →
          ∃ k : Int, s.currentDestinationIndex = .int k ∧ 0 ≤ k ∧ k < destinations.length)
      ∧ (crew ≠ [] → ∃ k : Int, s.currentCrewIndex = .int k ∧ 0 ≤ k ∧ k < crew.length)
      ∧ (technology ≠ [] →
          ∃ k : Int, s.currentTechnologyIndex = .int k ∧ 0 ≤ k ∧ k < technology.length) := by
  obtain ⟨⟨_, h1, h2, h3, _⟩, hdata⟩ := sessionInv_loaded env w content overlay
    ⟨some destinations, some crew, some technology⟩ before after hplain
  rw [← hs] at h1 h2 h3 hdata
  rw [hdata] at h1 h2 h3
  simp only [ZeroOrInRange, seqLength] at h1 h2 h3
  refine ⟨h1, h2, h3, ?_, ?_, ?_⟩
  · intro hne
    have hpos : 0 < destinations.length := List.length_pos.mpr hne
    rcases h1 with h | h
    · exact ⟨0, h, le_refl 0, by omega⟩
    · exact h
  · intro hne
    have hpos : 0 < crew.length := List.length_pos.mpr hne
    rcases h2 with h | h
    · exact ⟨0, h, le_refl 0, by omega⟩
    · exact h
  · intro hne
    have hpos : 0 < technology.length := List.length_pos.mpr hne
    rcases h3 with h | h
    · exact ⟨0, h, le_refl 0, by omega⟩
    · exact h

/-- Witness for C7: a session that views destination 2, crew member 1 and
technology 1, with a resize in between. -/
theorem remembered_indices_zero_or_in_range_witness :
    ∃ k : Int,
      (run sampleBrowser
          (fetchThen sampleBrowser (run sampleBrowser sampleStart [.navClick "crew"]) sampleData)
          [.exploreClick, .tabClick (.int 2), .navClick "crew", .crewDotClick (.int 1),
            .resizeTimeout, .navClick "technology",
            .techDotClick (.int 1)]).currentDestinationIndex = .int k
        ∧ 0 ≤ k ∧ k < sampleDestinations.length :=
  (remembered_indices_zero_or_in_range sampleBrowser 1440 (some "") (some false)
    sampleDestinations sampleCrew sampleTechnology [.navClick "crew"]
    [.exploreClick, .tabClick (.int 2), .navClick "crew", .crewDotClick (.int 1),
      .resizeTimeout, .navClick "technology", .techDotClick (.int 1)] _ (by decide)
    rfl).2.2.2.1 (by decide)

/-- Counterexample to C7 as stated: after a successful load of a content file
whose three sequences are empty, the remembered destination index is 0, which
is not below the length 0 of the destinations sequence. -/
theorem remembered_index_outside_empty_sequence :
    (fetchThen sampleBrowser sampleStart ⟨some [], some [], some []⟩).data.destinations
        = some []
      ∧ (fetchThen sampleBrowser sampleStart
          ⟨some [], some [], some []⟩).currentDestinationIndex = .int 0
      ∧ ¬ ∃ k : Int,
          (fetchThen sampleBrowser sampleStart
            ⟨some [], some [], some []⟩).currentDestinationIndex = .int k
            ∧ 0 ≤ k ∧ k < (([] : List Destination).length : Int) := by
  refine ⟨by decide, by decide, ?_⟩
  rintro ⟨k, _, h0, h1⟩
  simp only [List.length_nil, Nat.cast_zero] at h1
  omega

/-- A destination whose name holds an element: a click on that element reaches
the listener of its tab with a target that has no `data-destination-index`, so
that `parseInt` yields `NaN` and `NaN` becomes the remembered index. -/
theorem nested_label_click_stores_nan :
    (run sampleBrowser
        (fetchThen sampleBrowser sampleStart
          ⟨some [⟨"<b>Mars</b>", "The red planet.", "225 mil. km", "9 months", none⟩],
            some [], some []⟩)
        [.exploreClick, .tabClick .nan]).currentDestinationIndex = .nan := by
  decide

/-! ## Theorems: page content -/

theorem arrayGet_in_range {α : Type} (xs : List α) (i : Int) (h0 : 0 ≤ i)
    (h1 : i < xs.length) : ∃ x, arrayGet xs (.int i) = some x := by
  have hlt : i.toNat < xs.length := by omega
  refine ⟨xs.get ⟨i.toNat, hlt⟩, ?_⟩
  have hneg : ¬ i < 0 := by omega
  simp [arrayGet, hneg, List.getElem?_eq_getElem hlt]

theorem arrayGet_out_of_range {α : Type} (xs : List α) (i : Int)
    (h : i < 0 ∨ (xs.length : Int) ≤ i) : arrayGet xs (.int i) = none := by
  simp only [arrayGet]
  split_ifs with hneg
  · rfl
  · have : xs.length ≤ i.toNat := by omega
    simp [this]

theorem countP_mapIdx_false {α β : Type} (p : β → Bool) (l : List α) (f : Nat → α → β)
    (h : ∀ idx a, p (f idx a) = false) : (l.mapIdx f).countP p = 0 := by
  induction l generalizing f with
  | nil => rfl
  | cons a l ih =>
    rw [List.mapIdx_cons, List.countP_cons, ih (fun i => f (i + 1)) (fun idx b => h (idx + 1) b)]
    simp [h]

theorem countP_mapIdx_one {α β : Type} (p : β → Bool) (l : List α) (f : Nat → α → β) (n : Nat)
    (h : ∀ idx a, p (f idx a) = decide (idx = n)) (hn : n < l.length) :
    (l.mapIdx f).countP p = 1 := by
  induction l generalizing f n with
  | nil => simp at hn
  | cons a l ih =>
    rw [List.mapIdx_cons, List.countP_cons]
    cases n with
    | zero =>
      rw [countP_mapIdx_false p l (fun i => f (i + 1)) (fun idx b => by simp [h])]
      simp [h]
    | succ m =>
      rw [ih (fun i => f (i + 1)) m (fun idx b => by simp [h]) (by simpa using hn)]
      simp [h]

/-- C2: for a loaded store and an index `i` with `0 ≤ i < destinations.length`,
`getDestinationPageContent` returns the destination page markup whose tab list
is the concatenation of one `<li><button class="tab-button ...">` per
destination, in order; the button at position `j` has `data-destination-index`
`j` and the name of destination `j` as label, its class list ends in `active`
exactly when `j = i` and in nothing otherwise, and exactly one button is marked
active. -/
theorem getDestinationPageContent_tabs (flag : Bool) (data : Data)
    (destinations : List Destination) (i : Int) (hd : data.destinations = some destinations)
    (h0 : 0 ≤ i) (h1 : i < destinations.length) :
    (∃ (d : Destination) (imageUrl tabButtonsHtml : String),
        arrayGet destinations (.int i) = some d
          ∧ imageUrl = getOptimizedImagePath flag d.images
          ∧ tabButtonsHtml = String.join (destinations.mapIdx fun j dest =>
              "\n            <li>\n                <button class=\"tab-button ff-barlow-condensed fs-400 uppercase letter-spacing-2 "
              ++ (if (j : Int) = i then "active" else "") ++ "\" data-destination-index=\""
              ++ toString j ++ "\">\n                    " ++ dest.name
              ++ "\n                </button>\n            </li>\n        ")
          ∧ getDestinationPageContent flag data (.int i) = .ok (
            "\n            <section class=\"destination-page main-content-section flow\" style=\"--flow-space: 1rem;\">\n                <h2 class=\"page-title uppercase letter-spacing-2\"><span>01</span> Pick your destination</h2>\n                <div class=\"destination-image-container\">\n                    <img src=\""
            ++ imageUrl ++ "\" alt=\"" ++ d.name
            ++ "\" class=\"destination-image\" onerror=\"this.onerror=null; this.src='https://placehold.co/600x400/FF0000/FFFFFF?text=Image+Load+Error'; console.error('Failed to load image: "
            ++ imageUrl
            ++ "');\">\n                </div>\n                <div class=\"content-wrapper\">\n                    <ul class=\"tab-list\">\n                        "
            ++ tabButtonsHtml
            ++ "\n                    </ul>\n                    <h3 class=\"destination-name ff-bellefair uppercase fs-800\">"
            ++ d.name
            ++ "</h3>\n                    <p class=\"destination-description ff-barlow\">"
            ++ d.description
            ++ "</p>\n                    <div class=\"destination-meta flex\">\n                        <div class=\"meta-item\">\n                            <h3 class=\"ff-barlow-condensed uppercase letter-spacing-3\">Avg. distance</h3>\n                            <p class=\"ff-bellefair uppercase fs-600\">"
            ++ d.distance
            ++ "</p>\n                        </div>\n                        <div class=\"meta-item\">\n                            <h3 class=\"ff-barlow-condensed uppercase letter-spacing-3\">Est. travel time</h3>\n                            <p class=\"ff-bellefair uppercase fs-600\">"
            ++ d.travel
            ++ "</p>\n                        </div>\n                    </div>\n                </div>\n            </section>\n        "))
      ∧ (∀ b : TabButton, tabButtonHtml b =
          "\n            <li>\n                <button class=\"tab-button ff-barlow-condensed fs-400 uppercase letter-spacing-2 "
          ++ (if b.active = true then "active" else "") ++ "\" data-destination-index=\"" ++ toString b.index
          ++ "\">\n                    " ++ b.label ++ "\n                </button>\n            </li>\n        ")
      ∧ (destinationTabs destinations (.int i)).length = destinations.length
      ∧ (∀ j (hj : j < destinations.length),
          (destinationTabs destinations (.int i))[j]?
            = some ⟨decide ((j : Int) = i), j, (destinations[j]).name⟩)
      ∧ (∀ (j : Nat) (b : TabButton), (destinationTabs destinations (.int i))[j]? = some b →
          (b.active = true ↔ (j : Int) = i))
      ∧ (destinationTabs destinations (.int i)).countP (fun b => b.active) = 1 := by
  refine ⟨?_, ?_, ?_, ?_, ?_, ?_⟩
  · obtain ⟨d, hdd⟩ := arrayGet_in_range destinations i h0 h1
    refine ⟨d, _, _, hdd, rfl, rfl, ?_⟩
    have hmap : (destinationTabs destinations (.int i)).map tabButtonHtml
        = destinations.mapIdx fun j dest =>
            "\n            <li>\n                <button class=\"tab-button ff-barlow-condensed fs-400 uppercase letter-spacing-2 "
            ++ (if (j : Int) = i then "active" else "") ++ "\" data-destination-index=\""
            ++ toString j ++ "\">\n                    " ++ dest.name
            ++ "\n                </button>\n            </li>\n        " := by
      apply List.ext_getElem?
      intro j
      simp only [destinationTabs, List.getElem?_map, List.getElem?_mapIdx]
      cases destinations[j]? with
      | none => rfl
      | some dest =>
        by_cases hj : (j : Int) = i
        · simp [tabButtonHtml, activeClass, hj]
        · simp [tabButtonHtml, activeClass, hj]
    simp only [getDestinationPageContent, hd, hdd, hmap]
    rfl
  · intro b
    cases hb : b.active <;> simp [tabButtonHtml, activeClass, hb]
  · simp [destinationTabs]
  · intro j hj
    simp [destinationTabs, List.getElem?_eq_getElem hj]
  · intro j b hb
    simp only [destinationTabs, List.getElem?_mapIdx] at hb
    cases hg : destinations[j]? with
    | none => simp [hg] at hb
    | some d =>
      simp only [hg, Option.map_some', Option.some.injEq] at hb
      subst hb
      simp
  · have hn : i.toNat < destinations.length := by omega
    apply countP_mapIdx_one _ destinations _ i.toNat _ hn
    intro idx a
    have : ((idx : Int) = i) ↔ (idx = i.toNat) := by omega
    simp [this]

/-- Witness for C2: the sample destinations at index 1. -/
theorem getDestinationPageContent_tabs_witness :
    (destinationTabs sampleDestinations (.int 1)).countP (fun b => b.active) = 1
      ∧ (destinationTabs sampleDestinations (.int 1))[1]? = some ⟨true, 1, "Mars"⟩ :=
  have h := getDestinationPageContent_tabs true sampleData sampleDestinations 1 rfl (by decide)
    (by decide)
  ⟨h.2.2.2.2.2, h.2.2.2.1 1 (by decide)⟩

/-- C5: when the destinations sequence is a list and the index is outside
`0 ≤ i < destinations.length`, `getDestinationPageContent` returns the
`Destination not found.` fragment without raising, and `renderPage` mounts that
fragment without raising wherever the content region exists; in particular for
`destinations = []` and index 0. The same holds for the index `NaN`. -/
theorem getDestinationPageContent_not_found (env : Browser) (data : Data)
    (destinations : List Destination) (i : Int) (hd : data.destinations = some destinations)
    (hi : i < 0 ∨ (destinations.length : Int) ≤ i) :
    getDestinationPageContent env.webpSupported data (.int i) = .ok destinationNotFound
      ∧ (∀ (s : State) (old : String), s.data = data → s.mainContentArea = some old →
          (renderPage env s "destination" (some (.int i))).threw = false
            ∧ (renderPage env s "destination" (some (.int i))).state.mainContentArea
                = some destinationNotFound)
      ∧ (destinations = [] →
          getDestinationPageContent env.webpSupported data (.int 0) = .ok destinationNotFound)
      ∧ getDestinationPageContent env.webpSupported data .nan = .ok destinationNotFound := by
  have key : ∀ k : Int, (k < 0 ∨ (destinations.length : Int) ≤ k) →
      getDestinationPageContent env.webpSupported data (.int k) = .ok destinationNotFound := by
    intro k hk
    simp [getDestinationPageContent, hd, arrayGet_out_of_range destinations k hk]
  refine ⟨key i hi, ?_, ?_, ?_⟩
  · intro s old hs hm
    have hc : pageContent env.webpSupported s.innerWidth s.data "destination"
        ((some (JsIndex.int i)).getD (.int 0)) = .ok destinationNotFound := by
      simp [pageContent, hs, key i hi]
    obtain ⟨r1, r2, _, _⟩ := renderPage_ok env s "destination" (some (.int i)) old _ hm
      (selectorRaises_clean env _ cleanName_destination) hc
    exact ⟨r1, r2⟩
  · intro hnil
    exact key 0 (Or.inr (by simp [hnil]))
  · simp [getDestinationPageContent, hd, arrayGet]

/-- Witness for C5: a store with `destinations: []`, rendered at index 0. -/
theorem getDestinationPageContent_not_found_witness :
    getDestinationPageContent true ⟨some [], some [], some []⟩ (.int 0)
        = .ok destinationNotFound
      ∧ (renderPage sampleBrowser
          (fetchThen sampleBrowser sampleStart ⟨some [], some [], some []⟩) "destination"
          (some (.int 0))).state.mainContentArea = some destinationNotFound :=
  have h := getDestinationPageContent_not_found sampleBrowser ⟨some [], some [], some []⟩ [] 0
    rfl (by decide)
  ⟨h.1, (h.2.1 (fetchThen sampleBrowser sampleStart ⟨some [], some [], some []⟩)
    getHomePageContent rfl rfl).2⟩

/-! ## Theorems: navigation without an index, resize re-render -/

theorem getDestinationPageContent_loaded (flag : Bool) (data : Data)
    (destinations : List Destination) (i : JsIndex) (hd : data.destinations = some destinations) :
    ∃ html, getDestinationPageContent flag data i = .ok html := by
  simp only [getDestinationPageContent, hd]
  split
  · exact ⟨_, rfl⟩
  · exact ⟨_, rfl⟩

theorem getCrewPageContent_loaded (flag : Bool) (data : Data) (crew : List CrewMember)
    (i : JsIndex) (hd : data.crew = some crew) :
    ∃ html, getCrewPageContent flag data i = .ok html := by
  simp only [getCrewPageContent, hd]
  split
  · exact ⟨_, rfl⟩
  · exact ⟨_, rfl⟩

theorem getTechnologyPageContent_loaded (flag : Bool) (w : Int) (data : Data)
    (technology : List TechnologyItem) (i : JsIndex) (hd : data.technology = some technology) :
    ∃ html, getTechnologyPageContent flag w data i = .ok html := by
  simp only [getTechnologyPageContent, hd]
  split
  · exact ⟨_, rfl⟩
  · exact ⟨_, rfl⟩

/-- C4 (amended): in every state whose content region exists, `renderPage(page)`
without an index, as the navigation links and the Explore button call it, sets
the remembered index of an indexed page to 0 and leaves the other two
remembered indices unchanged; when the content sequence of the page is loaded
it mounts the fragment of that page for index 0, without raising, and makes the
page the current page. -/
theorem renderPage_without_index (env : Browser) (s : State) (old : String)
    (hm : s.mainContentArea = some old) :
    ((renderPage env s "destination" none).state.currentDestinationIndex = .int 0
        ∧ (renderPage env s "destination" none).state.currentCrewIndex = s.currentCrewIndex
        ∧ (renderPage env s "destination" none).state.currentTechnologyIndex
            = s.currentTechnologyIndex
        ∧ ∀ destinations, s.data.destinations = some destinations →
            ∃ html, getDestinationPageContent env.webpSupported s.data (.int 0) = .ok html
              ∧ (renderPage env s "destination" none).state.mainContentArea = some html
              ∧ (renderPage env s "destination" none).state.currentPage = "destination"
              ∧ (renderPage env s "destination" none).threw = false)
      ∧ ((renderPage env s "crew" none).state.currentCrewIndex = .int 0
        ∧ (renderPage env s "crew" none).state.currentDestinationIndex
            = s.currentDestinationIndex
        ∧ (renderPage env s "crew" none).state.currentTechnologyIndex
            = s.currentTechnologyIndex
        ∧ ∀ crew, s.data.crew = some crew →
            ∃ html, getCrewPageContent env.webpSupported s.data (.int 0) = .ok html
              ∧ (renderPage env s "crew" none).state.mainContentArea = some html
              ∧ (renderPage env s "crew" none).state.currentPage = "crew"
              ∧ (renderPage env s "crew" none).threw = false)
      ∧ ((renderPage env s "technology" none).state.currentTechnologyIndex = .int 0
        ∧ (renderPage env s "technology" none).state.currentDestinationIndex
            = s.currentDestinationIndex
        ∧ (renderPage env s "technology" none).state.currentCrewIndex = s.currentCrewIndex
        ∧ ∀ technology, s.data.technology = some technology →
            ∃ html, getTechnologyPageContent env.webpSupported s.innerWidth s.data (.int 0)
                = .ok html
              ∧ (renderPage env s "technology" none).state.mainContentArea = some html
              ∧ (renderPage env s "technology" none).state.currentPage = "technology"
              ∧ (renderPage env s "technology" none).threw = false) := by
  have vd := selectorRaises_clean env _ cleanName_destination
  have vc := selectorRaises_clean env _ cleanName_crew
  have vt := selectorRaises_clean env _ cleanName_technology
  refine ⟨⟨?_, ?_, ?_, ?_⟩, ⟨?_, ?_, ?_, ?_⟩, ⟨?_, ?_, ?_, ?_⟩⟩
  · rw [(renderPage_frame env s "destination" none).2.2.1]; simp [hm, vd]
  · rw [(renderPage_frame env s "destination" none).2.2.2.1]; simp
  · rw [(renderPage_frame env s "destination" none).2.2.2.2]; simp
  · intro destinations hd
    obtain ⟨html, hc⟩ := getDestinationPageContent_loaded env.webpSupported s.data destinations
      (.int 0) hd
    have := renderPage_ok env s "destination" none old html hm vd
      (by simpa [pageContent] using hc)
    exact ⟨html, hc, this.2.1, this.2.2.1, this.1⟩
  · rw [(renderPage_frame env s "crew" none).2.2.2.1]; simp [hm, vc]
  · rw [(renderPage_frame env s "crew" none).2.2.1]; simp
  · rw [(renderPage_frame env s "crew" none).2.2.2.2]; simp
  · intro crew hd
    obtain ⟨html, hc⟩ := getCrewPageContent_loaded env.webpSupported s.data crew (.int 0) hd
    have := renderPage_ok env s "crew" none old html hm vc (by simpa [pageContent] using hc)
    exact ⟨html, hc, this.2.1, this.2.2.1, this.1⟩
  · rw [(renderPage_frame env s "technology" none).2.2.2.2]; simp [hm, vt]
  · rw [(renderPage_frame env s "technology" none).2.2.1]; simp
  · rw [(renderPage_frame env s "technology" none).2.2.2.1]; simp
  · intro technology hd
    obtain ⟨html, hc⟩ := getTechnologyPageContent_loaded env.webpSupported s.innerWidth s.data
      technology (.int 0) hd
    have := renderPage_ok env s "technology" none old html hm vt
      (by simpa [pageContent] using hc)
    exact ⟨html, hc, this.2.1, this.2.2.1, this.1⟩

/-- Witness for C4 (amended): the destination link clicked while destination 2
of the sample content is shown. -/
theorem renderPage_without_index_witness :
    (renderPage sampleBrowser (run sampleBrowser (fetchThen sampleBrowser sampleStart sampleData)
        [.exploreClick, .tabClick (.int 2)]) "destination" none).state.currentDestinationIndex
        = .int 0
      ∧ ∃ html, getDestinationPageContent true sampleData (.int 0) = .ok html
        ∧ (renderPage sampleBrowser
            (run sampleBrowser (fetchThen sampleBrowser sampleStart sampleData)
              [.exploreClick, .tabClick (.int 2)]) "destination" none).state.mainContentArea
            = some html :=
  have h := renderPage_without_index sampleBrowser
    (run sampleBrowser (fetchThen sampleBrowser sampleStart sampleData)
      [.exploreClick, .tabClick (.int 2)]) _ rfl
  ⟨h.1.1, (h.1.2.2.2 sampleDestinations rfl).imp fun _ hh => ⟨hh.1, hh.2.1⟩⟩

/-- Counterexample to C4 as stated: with the sample content loaded, after the
third destination (index 2) has been viewed, a click on the destination link
leaves the remembered destination index at 0, not 2, and mounts the fragment of
index 0. -/
theorem nav_click_forgets_destination_index :
    (run sampleBrowser (fetchThen sampleBrowser sampleStart sampleData)
        [.exploreClick, .tabClick (.int 2)]).currentDestinationIndex = .int 2
      ∧ (run sampleBrowser (fetchThen sampleBrowser sampleStart sampleData)
          [.exploreClick, .tabClick (.int 2),
            .navClick "destination"]).currentDestinationIndex = .int 0
      ∧ (run sampleBrowser (fetchThen sampleBrowser sampleStart sampleData)
          [.exploreClick, .tabClick (.int 2),
            .navClick "destination"]).currentDestinationIndex ≠ .int 2
      ∧ Except.ok (run sampleBrowser (fetchThen sampleBrowser sampleStart sampleData)
          [.exploreClick, .tabClick (.int 2), .navClick "destination"]).mainContentArea
          = (getDestinationPageContent true sampleData (.int 0)).map some := by
  refine ⟨by decide, by decide, by decide, rfl⟩

theorem renderPage_currentPage (env : Browser) (s : State) (idx : Option JsIndex) :
    (renderPage env s s.currentPage idx).state.currentPage = s.currentPage := by
  cases hm : s.mainContentArea with
  | none => rw [renderPage_missing env s _ idx hm]
  | some old =>
    cases hr : selectorRaises env s.currentPage with
    | true => rw [renderPage_rejected env s _ idx old hm hr]
    | false =>
      cases hc : pageContent env.webpSupported s.innerWidth s.data s.currentPage
          (idx.getD (.int 0)) with
      | error e => exact (renderPage_error env s _ idx old e hm hr hc).2.2.1
      | ok html => exact (renderPage_ok env s _ idx old html hm hr hc).2.2.1

theorem resizeCallback_eq (env : Browser) (s : State) :
    resizeCallback env s = renderPage env s s.currentPage (rememberedIndex s) := by
  unfold resizeCallback rememberedIndex
  split_ifs <;> rfl

theorem renderPage_isSome (env : Browser) (s : State) (page : String) (idx : Option JsIndex) :
    (renderPage env s page idx).state.mainContentArea.isSome = s.mainContentArea.isSome := by
  cases hm : s.mainContentArea with
  | none => rw [renderPage_missing env s page idx hm, hm]
  | some old =>
    cases hr : selectorRaises env page with
    | true => rw [renderPage_rejected env s page idx old hm hr]; rfl
    | false =>
      cases hc : pageContent env.webpSupported s.innerWidth s.data page (idx.getD (.int 0)) with
      | error e => rw [(renderPage_error env s page idx old e hm hr hc).2.1]; rfl
      | ok html => rw [(renderPage_ok env s page idx old html hm hr hc).2.1]; rfl

theorem handle_isSome (env : Browser) (s : State) (e : Event) :
    (handle env s e).mainContentArea.isSome = s.mainContentArea.isSome := by
  cases e with
  | resizeTimeout =>
    show (resizeCallback env s).state.mainContentArea.isSome = _
    rw [resizeCallback_eq]
    exact renderPage_isSome env s _ _
  | viewportChange w => rfl
  | menuToggle => rfl
  | _ => exact renderPage_isSome env s _ _

theorem run_isSome (env : Browser) (events : List Event) (s : State) :
    (run env s events).mainContentArea.isSome = s.mainContentArea.isSome := by
  induction events generalizing s with
  | nil => rfl
  | cons e es ih =>
    unfold run
    rw [ih]
    split_ifs
    · exact handle_isSome env s e
    · rfl

theorem fetchCatch_isSome (s : State) :
    (fetchCatch s).mainContentArea.isSome = s.mainContentArea.isSome := by
  unfold fetchCatch
  split
  · rfl
  · next hm => rw [hm]; rfl

/-! ### The current page can always be rendered again -/

theorem pageContent_builds (flag : Bool) (w : Int) (data : Data) (page : String) (i : JsIndex)
    (hd : page = "destination" → data.destinations.isSome = true)
    (hc : page = "crew" → data.crew.isSome = true)
    (ht : page = "technology" → data.technology.isSome = true) :
    ∃ html, pageContent flag w data page i = .ok html := by
  unfold pageContent
  split_ifs with h1 h2 h3
  · obtain ⟨xs, hx⟩ := Option.isSome_iff_exists.mp (hd h1)
    exact getDestinationPageContent_loaded flag data xs i hx
  · obtain ⟨xs, hx⟩ := Option.isSome_iff_exists.mp (hc h2)
    exact getCrewPageContent_loaded flag data xs i hx
  · obtain ⟨xs, hx⟩ := Option.isSome_iff_exists.mp (ht h3)
    exact getTechnologyPageContent_loaded flag w data xs i hx
  · exact ⟨_, rfl⟩

theorem pageContent_loaded (flag : Bool) (w : Int) (data : Data) (page : String) (i : JsIndex)
    (html : String) (h : pageContent flag w data page i = .ok html) :
    (page = "destination" → data.destinations.isSome = true)
      ∧ (page = "crew" → data.crew.isSome = true)
      ∧ (page = "technology" → data.technology.isSome = true) := by
  refine ⟨?_, ?_, ?_⟩
  · intro hp
    subst hp
    cases hd : data.destinations with
    | none => simp [pageContent, getDestinationPageContent, hd] at h
    | some xs => rfl
  · intro hp
    subst hp
    cases hd : data.crew with
    | none => simp [pageContent, getCrewPageContent, hd] at h
    | some xs => rfl
  · intro hp
    subst hp
    cases hd : data.technology with
    | none => simp [pageContent, getTechnologyPageContent, hd] at h
    | some xs => rfl

theorem pageBuilds_renderPage (env : Browser) (s : State) (page : String)
    (idx : Option JsIndex) (h : PageBuilds env s) :
    PageBuilds env (renderPage env s page idx).state := by
  have hdata := (renderPage_frame env s page idx).1
  cases hm : s.mainContentArea with
  | none => rw [renderPage_missing env s _ idx hm]; exact h
  | some old =>
    cases hr : selectorRaises env page with
    | true => rw [renderPage_rejected env s _ idx old hm hr]; exact h
    | false =>
      cases hc : pageContent env.webpSupported s.innerWidth s.data page (idx.getD (.int 0)) with
      | error e =>
        unfold PageBuilds
        rw [hdata, (renderPage_error env s _ idx old e hm hr hc).2.2.1]
        exact h
      | ok html =>
        unfold PageBuilds
        rw [hdata, (renderPage_ok env s _ idx old html hm hr hc).2.2.1]
        exact ⟨hr, pageContent_loaded _ _ _ _ _ _ hc⟩

theorem pageBuilds_handle (env : Browser) (s : State) (e : Event) (h : PageBuilds env s) :
    PageBuilds env (handle env s e) := by
  cases e with
  | resizeTimeout =>
    show PageBuilds env (resizeCallback env s).state
    rw [resizeCallback_eq]
    exact pageBuilds_renderPage env s _ _ h
  | viewportChange w => exact h
  | menuToggle => exact h
  | _ => exact pageBuilds_renderPage env s _ _ h

theorem pageBuilds_run (env : Browser) (events : List Event) (s : State)
    (h : PageBuilds env s) : PageBuilds env (run env s events) := by
  induction events generalizing s with
  | nil => exact h
  | cons e es ih =>
    unfold run
    apply ih
    split_ifs
    · exact pageBuilds_handle env s e h
    · exact h

theorem pageBuilds_initial (env : Browser) (w : Int) (content : Option String)
    (overlay : Option Bool) : PageBuilds env (initialState w content overlay) :=
  ⟨selectorRaises_clean env _ cleanName_home,
    fun h => absurd (show "home" = "destination" from h) (by decide),
    fun h => absurd (show "home" = "crew" from h) (by decide),
    fun h => absurd (show "home" = "technology" from h) (by decide)⟩

theorem pageBuilds_fetchCatch (env : Browser) (s : State) (h : PageBuilds env s) :
    PageBuilds env (fetchCatch s) := by
  unfold fetchCatch
  split
  · exact h
  · exact h

theorem pageBuilds_fetchThen (env : Browser) (s : State) (jsonData : Data)
    (h : PageBuilds env s) (hd : s.data = emptyData) :
    PageBuilds env (fetchThen env s jsonData) := by
  have h0 : PageBuilds env { s with data := jsonData } := by
    obtain ⟨h1, h2, h3, h4⟩ := h
    rw [hd] at h2 h3 h4
    exact ⟨h1, fun hp => absurd (h2 hp) (by simp [emptyData]),
      fun hp => absurd (h3 hp) (by simp [emptyData]),
      fun hp => absurd (h4 hp) (by simp [emptyData])⟩
  have h1 := pageBuilds_renderPage env { s with data := jsonData } "home" none h0
  simp only [fetchThen]
  split_ifs
  · exact pageBuilds_fetchCatch env _ h1
  · exact h1

theorem fetchThen_isSome (env : Browser) (s : State) (jsonData : Data) :
    (fetchThen env s jsonData).mainContentArea.isSome = s.mainContentArea.isSome := by
  simp only [fetchThen]
  split_ifs
  · rw [fetchCatch_isSome, renderPage_isSome]
  · rw [renderPage_isSome]

theorem resizeRenders_of_pageBuilds (env : Browser) (s : State) (h : PageBuilds env s)
    (hm : s.mainContentArea.isSome = true) : ResizeRenders env s := by
  obtain ⟨old, hold⟩ := Option.isSome_iff_exists.mp hm
  obtain ⟨html, hc⟩ := pageContent_builds env.webpSupported s.innerWidth s.data s.currentPage
    ((rememberedIndex s).getD (.int 0)) h.2.1 h.2.2.1 h.2.2.2
  have := renderPage_ok env s s.currentPage (rememberedIndex s) old html hold h.1 hc
  exact ⟨html, hc, by rw [resizeCallback_eq]; exact this.2.1,
    by rw [resizeCallback_eq]; exact this.1⟩

/-- C6: the re-render scheduled by the resize handler leaves the current page
and the three remembered indices unchanged; when the content region exists,
the navigation-link lookup for the current page does not raise and the
fragment of the current page at its remembered index can be built, it mounts
exactly that fragment without raising. In every state that a session reaches,
before the fetch settles, after a load or after a failed fetch, the lookup does
not raise and the fragment can be built, so that the re-render mounts the
fragment of the current page at its remembered index whenever the content
region exists. -/
theorem resizeCallback_frame (env : Browser) (s : State) :
    (resizeCallback env s).state.currentPage = s.currentPage
      ∧ (resizeCallback env s).state.currentDestinationIndex = s.currentDestinationIndex
      ∧ (resizeCallback env s).state.currentCrewIndex = s.currentCrewIndex
      ∧ (resizeCallback env s).state.currentTechnologyIndex = s.currentTechnologyIndex
      ∧ (∀ old html, s.mainContentArea = some old →
          selectorRaises env s.currentPage = false →
          pageContent env.webpSupported s.innerWidth s.data s.currentPage
              ((rememberedIndex s).getD (.int 0)) = .ok html →
          (resizeCallback env s).state.mainContentArea = some html
            ∧ (resizeCallback env s).threw = false)
      ∧ (∀ w content overlay before, content.isSome = true →
          ResizeRenders env (run env (initialState w content overlay) before))
      ∧ (∀ w content overlay before jsonData after, content.isSome = true →
          ResizeRenders env (run env (fetchThen env
            (run env (initialState w content overlay) before) jsonData) after))
      ∧ (∀ w content overlay before after, content.isSome = true →
          ResizeRenders env (run env (fetchCatch
            (run env (initialState w content overlay) before)) after)) := by
  have hinit : ∀ w content overlay before,
      PageBuilds env (run env (initialState w content overlay) before) := by
    intro w content overlay before
    exact pageBuilds_run env before _ (pageBuilds_initial env w content overlay)
  have hsome : ∀ w content overlay before,
      (run env (initialState w content overlay) before).mainContentArea.isSome
        = content.isSome := by
    intro w content overlay before
    rw [run_isSome]
    rfl
  have key := renderPage_frame env s s.currentPage (rememberedIndex s)
  have hpage := renderPage_currentPage env s (rememberedIndex s)
  have hok := renderPage_ok env s s.currentPage (rememberedIndex s)
  rw [← resizeCallback_eq] at key hpage hok
  obtain ⟨_, _, f3, f4, f5⟩ := key
  refine ⟨hpage, ?_, ?_, ?_, ?_, ?_, ?_, ?_⟩
  · rw [f3]
    split_ifs with h
    · simp [rememberedIndex, h.2.2]
    · rfl
  · rw [f4]
    split_ifs with h
    · simp [rememberedIndex, h.2.2]
    · rfl
  · rw [f5]
    split_ifs with h
    · simp [rememberedIndex, h.2.2]
    · rfl
  · intro old html hm hv hc
    have := hok old html hm hv hc
    exact ⟨this.2.1, this.1⟩
  · intro w content overlay before hc
    exact resizeRenders_of_pageBuilds env _ (hinit w content overlay before)
      (by rw [hsome]; exact hc)
  · intro w content overlay before jsonData after hc
    apply resizeRenders_of_pageBuilds
    · apply pageBuilds_run
      apply pageBuilds_fetchThen env _ jsonData (hinit w content overlay before)
      rw [run_data]
      rfl
    · rw [run_isSome, fetchThen_isSome, hsome]
      exact hc
  · intro w content overlay before after hc
    apply resizeRenders_of_pageBuilds
    · exact pageBuilds_run env after _
        (pageBuilds_fetchCatch env _ (hinit w content overlay before))
    · rw [run_isSome, fetchCatch_isSome, hsome]
      exact hc

/-- Witness for C6: a resize while crew member 1 of the sample content is
shown mounts the crew fragment of index 1 again. -/
theorem resizeCallback_frame_witness :
    Except.ok (resizeCallback sampleBrowser
        (run sampleBrowser (fetchThen sampleBrowser sampleStart sampleData)
          [.navClick "crew", .crewDotClick (.int 1)])).state.mainContentArea
      = (getCrewPageContent true sampleData (.int 1)).map some :=
  congrArg Except.ok ((resizeCallback_frame sampleBrowser
    (run sampleBrowser (fetchThen sampleBrowser sampleStart sampleData)
      [.navClick "crew", .crewDotClick (.int 1)])).2.2.2.2.1
    _ _ rfl rfl rfl).1

/-! ## Theorems: failed fetch -/

theorem fragmentHead_append (h : List Char) (a b : String) (hl : h.length = 10)
    (ha : fragmentHead a = h) : fragmentHead (a ++ b) = h := by
  unfold fragmentHead at ha ⊢
  have h1 : 10 ≤ a.data.length := by
    have := congrArg List.length ha
    rw [List.length_take, hl] at this
    omega
  rw [String.data_append, List.take_append_of_le_length h1, ha]

theorem fragmentHead_destinationPageHtml (url : String) (d : Destination) (tabs : String) :
    fragmentHead (destinationPageHtml url d tabs) = "\n         ".data := by
  unfold destinationPageHtml
  repeat (refine fragmentHead_append _ _ _ rfl ?_)
  rfl

theorem fragmentHead_crewPageHtml (url : String) (c : CrewMember) (dots : String) :
    fragmentHead (crewPageHtml url c dots) = "\n         ".data := by
  unfold crewPageHtml
  repeat (refine fragmentHead_append _ _ _ rfl ?_)
  rfl

theorem fragmentHead_technologyPageHtml (url : String) (t : TechnologyItem) (dots : String) :
    fragmentHead (technologyPageHtml url t dots) = "\n         ".data := by
  unfold technologyPageHtml
  repeat (refine fragmentHead_append _ _ _ rfl ?_)
  rfl

theorem fragmentHead_destination (flag : Bool) (data : Data) (i : JsIndex) (html : String)
    (h : getDestinationPageContent flag data i = .ok html) :
    fragmentHead html = "<section c".data ∨ fragmentHead html = "\n         ".data := by
  unfold getDestinationPageContent at h
  split at h
  · simp at h
  · split at h
    · simp only [Except.ok.injEq] at h
      subst h
      left
      rfl
    · simp only [Except.ok.injEq] at h
      subst h
      right
      exact fragmentHead_destinationPageHtml _ _ _

theorem fragmentHead_crew (flag : Bool) (data : Data) (i : JsIndex) (html : String)
    (h : getCrewPageContent flag data i = .ok html) :
    fragmentHead html = "<section c".data ∨ fragmentHead html = "\n         ".data := by
  unfold getCrewPageContent at h
  split at h
  · simp at h
  · split at h
    · simp only [Except.ok.injEq] at h
      subst h
      left
      rfl
    · simp only [Except.ok.injEq] at h
      subst h
      right
      exact fragmentHead_crewPageHtml _ _ _

theorem fragmentHead_technology (flag : Bool) (w : Int) (data : Data) (i : JsIndex) (html : String)
    (h : getTechnologyPageContent flag w data i = .ok html) :
    fragmentHead html = "<section c".data ∨ fragmentHead html = "\n         ".data := by
  unfold getTechnologyPageContent at h
  split at h
  · simp at h
  · split at h
    · simp only [Except.ok.injEq] at h
      subst h
      left
      rfl
    · simp only [Except.ok.injEq] at h
      subst h
      right
      exact fragmentHead_technologyPageHtml _ _ _

theorem afterFailure_not_indexed (s : State) (html : String) (h : AfterFailure s)
    (hh : fragmentHead html = "<section c".data ∨ fragmentHead html = "\n         ".data) :
    s.mainContentArea ≠ some html := by
  intro hm
  obtain ⟨_, h1 | h1 | h1 | h1⟩ := h
  · rw [h1] at hm
    cases hm
  · rw [h1] at hm
    have e : fetchErrorMessage = html := Option.some.inj hm
    rw [← e] at hh
    revert hh
    decide
  · rw [h1] at hm
    have e : "" = html := Option.some.inj hm
    rw [← e] at hh
    revert hh
    decide
  · rw [h1] at hm
    have e : getHomePageContent = html := Option.some.inj hm
    rw [← e] at hh
    revert hh
    decide

theorem pageContent_emptyData (flag : Bool) (w : Int) (page : String) (i : JsIndex)
    (html : String) (h : pageContent flag w emptyData page i = .ok html) :
    html = getHomePageContent := by
  unfold pageContent at h
  split_ifs at h
  · simp [getDestinationPageContent, emptyData] at h
  · simp [getCrewPageContent, emptyData] at h
  · simp [getTechnologyPageContent, emptyData] at h
  · exact (Except.ok.inj h).symm

theorem afterFailure_renderPage (env : Browser) (s : State) (page : String)
    (idx : Option JsIndex) (h : AfterFailure s) :
    AfterFailure (renderPage env s page idx).state := by
  refine ⟨((renderPage_frame env s page idx).1).trans h.1, ?_⟩
  cases hm : s.mainContentArea with
  | none =>
    rw [renderPage_missing env s page idx hm]
    exact Or.inl hm
  | some old =>
    cases hr : selectorRaises env page with
    | true =>
      rw [renderPage_rejected env s page idx old hm hr]
      exact Or.inr (Or.inr (Or.inl rfl))
    | false =>
      cases hc : pageContent env.webpSupported s.innerWidth s.data page (idx.getD (.int 0)) with
      | error e =>
        exact Or.inr (Or.inr (Or.inl (renderPage_error env s page idx old e hm hr hc).2.1))
      | ok html =>
        have hh : html = getHomePageContent :=
          pageContent_emptyData env.webpSupported s.innerWidth page (idx.getD (.int 0)) html
            (by rw [← h.1]; exact hc)
        exact Or.inr (Or.inr (Or.inr
          (hh ▸ (renderPage_ok env s page idx old html hm hr hc).2.1)))

theorem afterFailure_handle (env : Browser) (s : State) (e : Event) (h : AfterFailure s) :
    AfterFailure (handle env s e) := by
  cases e with
  | resizeTimeout =>
    show AfterFailure (resizeCallback env s).state
    rw [resizeCallback_eq]
    exact afterFailure_renderPage env s _ _ h
  | viewportChange w => exact h
  | menuToggle => exact h
  | _ => exact afterFailure_renderPage env s _ _ h

theorem afterFailure_run (env : Browser) (events : List Event) (s : State)
    (h : AfterFailure s) : AfterFailure (run env s events) := by
  induction events generalizing s with
  | nil => exact h
  | cons e es ih =>
    unfold run
    apply ih
    split_ifs
    · exact afterFailure_handle env s e h
    · exact h

theorem afterFailure_fetchCatch (s : State) (h : s.data = emptyData) :
    AfterFailure (fetchCatch s) := by
  unfold fetchCatch
  split
  · next hm => exact ⟨h, Or.inl hm⟩
  · exact ⟨h, Or.inr (Or.inl rfl)⟩

/-- C8 (amended): once the fetch has failed the content region shows the error
message, the content store stays `{}`, and after any later events the content
region holds the error message, nothing, or the home fragment, never a fragment
of the destination, crew or technology page; the home page stays reachable: a
click on the logo or home link mounts the home fragment, and so does the resize
re-render while the current page is home. -/
theorem failed_fetch_session (env : Browser) (w : Int) (content : Option String)
    (overlay : Option Bool) (before after : List Event) (failed s : State)
    (hf : failed = fetchCatch (run env (initialState w content overlay) before))
    (hs : s = run env failed after) :
    (content.isSome = true → failed.mainContentArea = some fetchErrorMessage)
      ∧ s.data = emptyData
      ∧ (s.mainContentArea = none ∨ s.mainContentArea = some fetchErrorMessage
          ∨ s.mainContentArea = some "" ∨ s.mainContentArea = some getHomePageContent)
      ∧ (∀ data i html, getDestinationPageContent env.webpSupported data i = .ok html →
          s.mainContentArea ≠ some html)
      ∧ (∀ data i html, getCrewPageContent env.webpSupported data i = .ok html →
          s.mainContentArea ≠ some html)
      ∧ (∀ width data i html,
          getTechnologyPageContent env.webpSupported width data i = .ok html →
          s.mainContentArea ≠ some html)
      ∧ (content.isSome = true →
          (handle env s (.navClick "home")).mainContentArea = some getHomePageContent)
      ∧ (content.isSome = true → s.currentPage = "home" →
          (handle env s .resizeTimeout).mainContentArea = some getHomePageContent) := by
  have hdata : (run env (initialState w content overlay) before).data = emptyData := by
    rw [run_data]
    rfl
  have hsome : (run env (initialState w content overlay) before).mainContentArea.isSome
      = content.isSome := by
    rw [run_isSome]
    rfl
  have hfail : AfterFailure failed := hf ▸ afterFailure_fetchCatch _ hdata
  have hinv : AfterFailure s := hs ▸ afterFailure_run env after failed hfail
  have hregion : content.isSome = true → ∃ old, s.mainContentArea = some old := by
    intro hc
    have hsm : s.mainContentArea.isSome = true := by
      rw [hs, run_isSome, hf, fetchCatch_isSome, hsome]
      exact hc
    exact Option.isSome_iff_exists.mp hsm
  refine ⟨?_, hinv.1, hinv.2, ?_, ?_, ?_, ?_, ?_⟩
  · intro hc
    rw [hf]
    unfold fetchCatch
    split
    · next hm =>
      rw [hm] at hsome
      rw [← hsome] at hc
      simp at hc
    · rfl
  · intro data i html h
    exact afterFailure_not_indexed s html hinv
      (fragmentHead_destination env.webpSupported data i html h)
  · intro data i html h
    exact afterFailure_not_indexed s html hinv (fragmentHead_crew env.webpSupported data i html h)
  · intro width data i html h
    exact afterFailure_not_indexed s html hinv
      (fragmentHead_technology env.webpSupported width data i html h)
  · intro hc
    obtain ⟨old, hold⟩ := hregion hc
    exact (renderPage_ok env s "home" none old getHomePageContent hold
      (selectorRaises_clean env _ cleanName_home) (by simp [pageContent])).2.1
  · intro hc hp
    obtain ⟨old, hold⟩ := hregion hc
    show (resizeCallback env s).state.mainContentArea = some getHomePageContent
    rw [resizeCallback_eq]
    exact (renderPage_ok env s s.currentPage (rememberedIndex s) old getHomePageContent hold
      (by rw [hp]; exact selectorRaises_clean env _ cleanName_home)
      (by simp [pageContent, hp])).2.1

/-- Witness for C8 (amended): a failed fetch followed by a click on the crew
link, then a click on the logo or a resize. -/
theorem failed_fetch_session_witness :
    (handle sampleBrowser
        (run sampleBrowser (fetchCatch (run sampleBrowser sampleStart [])) [.navClick "crew"])
        (.navClick "home")).mainContentArea = some getHomePageContent
      ∧ (handle sampleBrowser
          (run sampleBrowser (fetchCatch (run sampleBrowser sampleStart [])) [.navClick "crew"])
          .resizeTimeout).mainContentArea = some getHomePageContent :=
  have h := failed_fetch_session sampleBrowser 1440 (some "") (some false) []
    [.navClick "crew"] _ _ rfl rfl
  ⟨h.2.2.2.2.2.2.1 rfl, h.2.2.2.2.2.2.2 rfl rfl⟩

/-- Counterexample to C8 as stated: after a failed fetch the content region
shows the error message, and a later click on the logo, or a resize, mounts the
home fragment. -/
theorem home_mounted_after_failed_fetch :
    (fetchCatch sampleStart).mainContentArea = some fetchErrorMessage
      ∧ (run sampleBrowser (fetchCatch sampleStart) [.navClick "home"]).mainContentArea
          = some getHomePageContent
      ∧ (run sampleBrowser (fetchCatch sampleStart)
          [.viewportChange 800, .resizeTimeout]).mainContentArea
          = some getHomePageContent :=
  ⟨rfl, rfl, rfl⟩

end SpaceTourism
